import Mathlib

/-!
Shallow embedding of the libMedia V4L2 capture library (media.c) for the
Luckfox Pico.  Hardware interactions (ioctl, mmap, select, open, close) are
modelled by explicit oracle parameters describing what the kernel returns,
and every library call additionally reports the list of hardware-visible
events it performed, the value it stored into the global last-error slot
(if any), and its integer return code, exactly following the C control flow.
-/

namespace LibMedia

/-- VIDEO_MAX_PLANES from linux/videodev2.h: buffers carry up to 8 planes. -/
def VIDEO_MAX_PLANES : Nat := 8

/-- MAX_DEVICES from media.c: size of the static device registry. -/
def MAX_DEVICES : Nat := 16

/-- A C pointer as stored in media_buffer_t.start[p]: NULL, the mmap failure
sentinel MAP_FAILED, or a valid mapping address. -/
inductive Ptr where
  | null : Ptr
  | mapFailed : Ptr
  | mapped : Nat → Ptr
deriving DecidableEq, Repr, Inhabited

/-- The condition of the munmap guard in libmedia_free_buffers:
start[p] != MAP_FAILED && start[p] != NULL. -/
def Ptr.isMapped : Ptr → Bool
  | .mapped _ => true
  | _ => false

/-- media_error_t from media.h. -/
inductive MediaError where
  | noError
  | invalidParam
  | deviceNotFound
  | deviceBusy
  | notSupported
  | outOfMemory
  | ioctlFailed
  | timeout
  | bufferError
  | formatError
  | streamingError
deriving DecidableEq, Repr, Inhabited

/-- The numeric codes of media_error_t. -/
def MediaError.toCode : MediaError → Int
  | .noError => 0
  | .invalidParam => -1
  | .deviceNotFound => -2
  | .deviceBusy => -3
  | .notSupported => -4
  | .outOfMemory => -5
  | .ioctlFailed => -6
  | .timeout => -7
  | .bufferError => -8
  | .formatError => -9
  | .streamingError => -10

/-- Hardware-visible actions performed by a library call.  The mp flag
distinguishes the multi-planar buffer type from the single-planar one. -/
inductive Event where
  | ioctlReqBufs (mp : Bool) (count : Nat)
  | ioctlQueryBuf (mp : Bool) (i : Nat)
  | mmapCall (i p : Nat) (addr : Nat)
  | munmapCall (i p : Nat)
  | ioctlQBuf (mp : Bool) (i : Nat)
  | ioctlDQBuf (mp : Bool)
  | ioctlStreamOn (mp : Bool)
  | ioctlStreamOff (mp : Bool)
  | ioctlSetFmt (mp : Bool)
  | selectCall
  | closeFdCall
deriving DecidableEq, Repr

/-- Number of successful mmap establishments in an event list. -/
def mmapCount (evs : List Event) : Nat :=
  evs.countP fun e => match e with | .mmapCall _ _ _ => true | _ => false

/-- Number of munmap tear-downs in an event list. -/
def munmapCount (evs : List Event) : Nat :=
  evs.countP fun e => match e with | .munmapCall _ _ => true | _ => false

/-- media_format_t: plane_size is the fixed uint32_t[VIDEO_MAX_PLANES] array. -/
structure MediaFormat where
  width : Nat
  height : Nat
  pixelformat : Nat
  field : Nat
  num_planes : Nat
  plane_size : List Nat
deriving DecidableEq, Repr, Inhabited

/-- media_buffer_t: start and length are the fixed per-plane arrays. -/
structure MediaBuffer where
  start : List Ptr
  length : List Nat
  num_planes : Nat
  index : Nat
  bytes_used : Nat
  timestamp : Nat
deriving DecidableEq, Repr, Inhabited

/-- Total number of mapped plane pointers held in a buffer array: the
mapping-count probe of the specification. -/
def arrayMappedCount (arr : List MediaBuffer) : Nat :=
  (arr.map fun b => b.start.countP Ptr.isMapped).sum

/-- device_context_t.  The cached media_device_info_t field is omitted: it is
written only by libmedia_get_device_info and read by nothing in the library.
dev->buffers is the stored pointer to the caller-owned buffer array, modelled
together with the current contents of that array. -/
structure DeviceContext where
  fd : Int
  device_path : String
  format : MediaFormat
  buffers : Option (List MediaBuffer)
  buffer_count : Nat
  streaming : Bool
  use_multiplanar : Bool
deriving DecidableEq, Repr, Inhabited

/-- The zeroed registry slot produced by libmedia_init (fd set to -1). -/
def emptyDevice : DeviceContext :=
  { fd := -1
    device_path := ""
    format := default
    buffers := none
    buffer_count := 0
    streaming := false
    use_multiplanar := false }

/-- The global state of media.c: g_devices, g_device_count, g_initialized,
g_last_error. -/
structure Registry where
  devices : List DeviceContext
  device_count : Nat
  initialized : Bool
  last_error : MediaError
deriving DecidableEq, Repr

/-- set_last_error on the registry. -/
def setErr (st : Registry) (e : MediaError) : Registry :=
  { st with last_error := e }

/-- libmedia_init: zero the table, mark every fd as -1, reset the count. -/
def libmedia_init (st : Registry) : Int × Registry :=
  if st.initialized then (0, st)
  else
    (0, { devices := List.replicate MAX_DEVICES emptyDevice
          device_count := 0
          initialized := true
          last_error := MediaError.noError })

/-- libmedia_open_device.  device_path models the possibly-NULL C string
argument; osOpen models the result of open(2) (none is the -1 failure).
A fresh slot keeps whatever format the zeroed slot held, exactly as the C
code only assigns fd, path, buffers, buffer_count, streaming and
use_multiplanar. -/
def libmedia_open_device (st : Registry) (device_path : Option String)
    (osOpen : Option Int) : Int × Registry :=
  let st := if st.initialized then st else (libmedia_init st).2
  match device_path with
  | none => (-1, setErr st .invalidParam)
  | some path =>
    if MAX_DEVICES ≤ st.device_count then (-1, setErr st .outOfMemory)
    else
      match osOpen with
      | none => (-1, setErr st .deviceNotFound)
      | some fd =>
        let old := st.devices.getD st.device_count emptyDevice
        let dev := { old with
          fd := fd
          device_path := path
          buffer_count := 0
          buffers := none
          streaming := false
          use_multiplanar := false }
        ((st.device_count : Int),
         { st with
           devices := st.devices.set st.device_count dev
           device_count := st.device_count + 1 })

/-- One plane step of the unmap loop in libmedia_free_buffers: munmap and
NULL the pointer exactly when it is neither MAP_FAILED nor NULL. -/
def freePlanesAux (i : Nat) : List Nat → List Ptr → List Ptr × List Event
  | [], st => (st, [])
  | p :: rest, st =>
    if (st.getD p Ptr.null).isMapped then
      let r := freePlanesAux i rest (st.set p Ptr.null)
      (r.1, Event.munmapCall i p :: r.2)
    else
      freePlanesAux i rest st

/-- The buffer loop of libmedia_free_buffers: for each index, unmap the
planes 0 .. num_planes-1 of that buffer in place. -/
def freeLoop : List Nat → List MediaBuffer → List MediaBuffer × List Event
  | [], arr => (arr, [])
  | i :: rest, arr =>
    let b := arr.getD i default
    let r := freePlanesAux i (List.range b.num_planes) b.start
    let arr2 := arr.set i { b with start := r.1 }
    let r2 := freeLoop rest arr2
    (r2.1, r.2 ++ r2.2)

/-- Result of a call that may update the device and a caller buffer array. -/
structure BufOpRes where
  ret : Int
  dev : DeviceContext
  arr : List MediaBuffer
  evs : List Event
  err : Option MediaError
deriving DecidableEq, Repr

/-- libmedia_free_buffers.  buffers models the possibly-NULL array pointer.
The guard mirrors the C check (!dev || !buffers || count <= 0), where a
failing find_device is the !dev case; the combined guard overwrites the
last error with MEDIA_ERROR_INVALID_PARAM.  On the main path every mapped
plane is unmapped and nulled, then the device forgets its pool. -/
def libmedia_free_buffers (dev : DeviceContext)
    (buffers : Option (List MediaBuffer)) (count : Int) : BufOpRes :=
  if dev.fd < 0 ∨ buffers.isNone ∨ count ≤ 0 then
    ⟨-1, dev, buffers.getD [], [], some .invalidParam⟩
  else
    let arr := buffers.getD []
    let r := freeLoop (List.range count.toNat) arr
    ⟨0, { dev with buffers := none, buffer_count := 0 }, r.1, r.2, none⟩

/-- The kernel reply to VIDIOC_QUERYBUF in single-planar mode. -/
structure QueryBufSP where
  buf_length : Nat
  offset : Nat

/-- Oracle for libmedia_request_buffers: the REQBUFS grant (none is ioctl
failure, some g is reqbuf.count after the call), the per-index QUERYBUF
replies, and the per-index mmap results (none is MAP_FAILED). -/
structure ReqHwSP where
  reqbufs : Option Nat
  querybuf : Nat → Option QueryBufSP
  mmapRes : Nat → Option Nat

/-- Outcome of the buffer-mapping loops: the array and events so far,
tagged with the error to store when the loop aborted. -/
inductive LoopOut where
  | ok (arr : List MediaBuffer) (evs : List Event)
  | fail (err : MediaError) (arr : List MediaBuffer) (evs : List Event)
deriving DecidableEq, Repr

/-- The array carried by a LoopOut. -/
def LoopOut.arr : LoopOut → List MediaBuffer
  | .ok a _ => a
  | .fail _ a _ => a

/-- The events carried by a LoopOut. -/
def LoopOut.evs : LoopOut → List Event
  | .ok _ e => e
  | .fail _ _ e => e

/-- The mapping loop of libmedia_request_buffers: per granted index, query
the buffer, mmap it, and fill start[0], length[0], num_planes = 1, index.
A QUERYBUF failure stores MEDIA_ERROR_BUFFER_ERROR, a MAP_FAILED stores
MEDIA_ERROR_OUT_OF_MEMORY, and either aborts with buffers mapped so far
left in place. -/
def mapLoopSP (hw : ReqHwSP) : List Nat → List MediaBuffer → List Event → LoopOut
  | [], arr, evs => .ok arr evs
  | i :: rest, arr, evs =>
    match hw.querybuf i with
    | none => .fail .bufferError arr (evs ++ [.ioctlQueryBuf false i])
    | some qb =>
      match hw.mmapRes i with
      | none => .fail .outOfMemory arr (evs ++ [.ioctlQueryBuf false i])
      | some addr =>
        let b := arr.getD i default
        let b2 := { b with
          start := b.start.set 0 (Ptr.mapped addr)
          length := b.length.set 0 qb.buf_length
          num_planes := 1
          index := i }
        mapLoopSP hw rest (arr.set i b2)
          (evs ++ [.ioctlQueryBuf false i, .mmapCall i 0 addr])

/-- libmedia_request_buffers.  Returns reqbuf.count (the hardware grant) on
success, whether or not it equals the requested count; stores the pool on
the device. -/
def libmedia_request_buffers (dev : DeviceContext) (count : Int)
    (buffers : Option (List MediaBuffer)) (hw : ReqHwSP) : BufOpRes :=
  if dev.fd < 0 ∨ count ≤ 0 ∨ buffers.isNone then
    ⟨-1, dev, buffers.getD [], [], some .invalidParam⟩
  else
    let arr := buffers.getD []
    match hw.reqbufs with
    | none => ⟨-1, dev, arr, [.ioctlReqBufs false count.toNat], some .bufferError⟩
    | some g =>
      match mapLoopSP hw (List.range g) arr [.ioctlReqBufs false count.toNat] with
      | .fail e arr2 evs => ⟨-1, dev, arr2, evs, some e⟩
      | .ok arr2 evs =>
        ⟨(g : Int),
         { dev with buffers := some arr2, buffer_count := g },
         arr2, evs, none⟩

/-- The kernel reply to VIDIOC_QUERYBUF in multi-planar mode: buf.length is
the plane count, and per plane the length and mem_offset. -/
structure QueryBufMP where
  num_planes : Nat
  plane_length : Nat → Nat
  plane_offset : Nat → Nat

/-- Oracle for libmedia_request_buffers_mp; mmapRes takes index and plane. -/
structure ReqHwMP where
  reqbufs : Option Nat
  querybuf : Nat → Option QueryBufMP
  mmapRes : Nat → Nat → Option Nat

/-- Outcome of the per-plane mapping loop. -/
inductive PlaneOut where
  | ok (start : List Ptr) (lens : List Nat) (evs : List Event)
  | fail (start : List Ptr) (lens : List Nat) (evs : List Event)
deriving DecidableEq, Repr

/-- The per-plane mmap loop of libmedia_request_buffers_mp: mmap plane p and
record start[p] and length[p]; a MAP_FAILED aborts leaving the earlier
planes of this buffer (and of earlier buffers) mapped. -/
def mapPlanesMP (hw : ReqHwMP) (i : Nat) (planeLen : Nat → Nat) :
    List Nat → List Ptr → List Nat → List Event → PlaneOut
  | [], st, ln, evs => .ok st ln evs
  | p :: rest, st, ln, evs =>
    match hw.mmapRes i p with
    | none => .fail st ln evs
    | some addr =>
      mapPlanesMP hw i planeLen rest (st.set p (Ptr.mapped addr))
        (ln.set p (planeLen p))
        (evs ++ [.mmapCall i p addr])

/-- The buffer loop of libmedia_request_buffers_mp: per granted index, query
the buffer, record its plane count and index, then map every plane. -/
def mapLoopMP (hw : ReqHwMP) : List Nat → List MediaBuffer → List Event → LoopOut
  | [], arr, evs => .ok arr evs
  | i :: rest, arr, evs =>
    match hw.querybuf i with
    | none => .fail .bufferError arr (evs ++ [.ioctlQueryBuf true i])
    | some qb =>
      match mapPlanesMP hw i qb.plane_length (List.range qb.num_planes)
              (arr.getD i default).start (arr.getD i default).length
              (evs ++ [.ioctlQueryBuf true i]) with
      | .fail st ln evs2 =>
        .fail .outOfMemory
          (arr.set i { arr.getD i default with
            num_planes := qb.num_planes, index := i, start := st, length := ln })
          evs2
      | .ok st ln evs2 =>
        mapLoopMP hw rest
          (arr.set i { arr.getD i default with
            num_planes := qb.num_planes, index := i, start := st, length := ln })
          evs2

/-- libmedia_request_buffers_mp: the multi-planar twin of
libmedia_request_buffers. -/
def libmedia_request_buffers_mp (dev : DeviceContext) (count : Int)
    (buffers : Option (List MediaBuffer)) (hw : ReqHwMP) : BufOpRes :=
  if dev.fd < 0 ∨ count ≤ 0 ∨ buffers.isNone then
    ⟨-1, dev, buffers.getD [], [], some .invalidParam⟩
  else
    let arr := buffers.getD []
    match hw.reqbufs with
    | none => ⟨-1, dev, arr, [.ioctlReqBufs true count.toNat], some .bufferError⟩
    | some g =>
      match mapLoopMP hw (List.range g) arr [.ioctlReqBufs true count.toNat] with
      | .fail e arr2 evs => ⟨-1, dev, arr2, evs, some e⟩
      | .ok arr2 evs =>
        ⟨(g : Int),
         { dev with buffers := some arr2, buffer_count := g },
         arr2, evs, none⟩

/-- Result of a streaming-control call. -/
structure StreamRes where
  ret : Int
  dev : DeviceContext
  evs : List Event
  err : Option MediaError
deriving DecidableEq, Repr

/-- libmedia_start_streaming: send VIDIOC_STREAMON (hwOk is the ioctl
outcome) and set the streaming flag on success.  No buffer-pool state is
consulted. -/
def libmedia_start_streaming (dev : DeviceContext) (hwOk : Bool) : StreamRes :=
  if dev.fd < 0 then ⟨-1, dev, [], some .deviceNotFound⟩
  else if hwOk then ⟨0, { dev with streaming := true }, [.ioctlStreamOn false], none⟩
  else ⟨-1, dev, [.ioctlStreamOn false], some .streamingError⟩

/-- libmedia_start_streaming_mp. -/
def libmedia_start_streaming_mp (dev : DeviceContext) (hwOk : Bool) : StreamRes :=
  if dev.fd < 0 then ⟨-1, dev, [], some .deviceNotFound⟩
  else if hwOk then ⟨0, { dev with streaming := true }, [.ioctlStreamOn true], none⟩
  else ⟨-1, dev, [.ioctlStreamOn true], some .streamingError⟩

/-- libmedia_stop_streaming: send VIDIOC_STREAMOFF and clear the streaming
flag on success; on an ioctl failure the flag is left as it was. -/
def libmedia_stop_streaming (dev : DeviceContext) (hwOk : Bool) : StreamRes :=
  if dev.fd < 0 then ⟨-1, dev, [], some .deviceNotFound⟩
  else if hwOk then ⟨0, { dev with streaming := false }, [.ioctlStreamOff false], none⟩
  else ⟨-1, dev, [.ioctlStreamOff false], some .streamingError⟩

/-- libmedia_stop_streaming_mp. -/
def libmedia_stop_streaming_mp (dev : DeviceContext) (hwOk : Bool) : StreamRes :=
  if dev.fd < 0 then ⟨-1, dev, [], some .deviceNotFound⟩
  else if hwOk then ⟨0, { dev with streaming := false }, [.ioctlStreamOff true], none⟩
  else ⟨-1, dev, [.ioctlStreamOff true], some .streamingError⟩

/-- What one select(2) call reports for the device fd. -/
inductive SelectOutcome where
  | ready
  | timedOut
  | eintr
  | otherError
deriving DecidableEq, Repr

/-- Result of libmedia_wait_for_frame. -/
structure WaitRes where
  ret : Int
  evs : List Event
  err : Option MediaError
deriving DecidableEq, Repr

/-- libmedia_wait_for_frame.  sel k is what the k-th select call on this
entry would report; the C code performs exactly one select call and so
consults sel 0 only.  EINTR is mapped to return 0 with
MEDIA_ERROR_TIMEOUT, identically to an elapsed timeout; a timeout yields
return 0; readiness yields return 1; any other select failure yields -1
with MEDIA_ERROR_IOCTL_FAILED.  timeout_ms only selects between a bounded
and an indefinite wait and does not alter this mapping. -/
def libmedia_wait_for_frame (dev : DeviceContext) (timeout_ms : Int)
    (sel : Nat → SelectOutcome) : WaitRes :=
  if dev.fd < 0 then ⟨-1, [], some .deviceNotFound⟩
  else
    let _ := timeout_ms
    match sel 0 with
    | .ready => ⟨1, [.selectCall], none⟩
    | .timedOut => ⟨0, [.selectCall], some .timeout⟩
    | .eintr => ⟨0, [.selectCall], some .timeout⟩
    | .otherError => ⟨-1, [.selectCall], some .ioctlFailed⟩

/-- The kernel reply to VIDIOC_DQBUF: failure with or without EAGAIN, or a
completed buffer index with its byte count and timeval stamp. -/
inductive DqHw where
  | fail (eagain : Bool)
  | done (index : Nat) (bytesused : Nat) (tv_sec : Nat) (tv_usec : Nat)
deriving DecidableEq, Repr

/-- Result of a dequeue call. -/
structure DequeueRes where
  ret : Int
  buffer : Option MediaBuffer
  evs : List Event
  err : Option MediaError
deriving DecidableEq, Repr

/-- libmedia_dequeue_buffer: EAGAIN stores MEDIA_ERROR_TIMEOUT, any other
ioctl failure stores MEDIA_ERROR_BUFFER_ERROR; a hardware-reported index is
checked against dev->buffer_count before dev->buffers is read, and an
out-of-range index is MEDIA_ERROR_BUFFER_ERROR with no pool access. -/
def libmedia_dequeue_buffer (dev : DeviceContext) (hw : DqHw) : DequeueRes :=
  if dev.fd < 0 then ⟨-1, none, [], some .invalidParam⟩
  else
    match hw with
    | .fail true => ⟨-1, none, [.ioctlDQBuf false], some .timeout⟩
    | .fail false => ⟨-1, none, [.ioctlDQBuf false], some .bufferError⟩
    | .done idx used sec usec =>
      if dev.buffer_count ≤ idx then ⟨-1, none, [.ioctlDQBuf false], some .bufferError⟩
      else
        let b := (dev.buffers.getD []).getD idx default
        ⟨0,
         some { b with
           bytes_used := used
           timestamp := sec * 1000000000 + usec * 1000 },
         [.ioctlDQBuf false], none⟩

/-- libmedia_dequeue_buffer_mp: identical control flow with the multi-planar
buffer type; bytesused is taken from plane 0 of the kernel reply. -/
def libmedia_dequeue_buffer_mp (dev : DeviceContext) (hw : DqHw) : DequeueRes :=
  if dev.fd < 0 then ⟨-1, none, [], some .invalidParam⟩
  else
    match hw with
    | .fail true => ⟨-1, none, [.ioctlDQBuf true], some .timeout⟩
    | .fail false => ⟨-1, none, [.ioctlDQBuf true], some .bufferError⟩
    | .done idx used sec usec =>
      if dev.buffer_count ≤ idx then ⟨-1, none, [.ioctlDQBuf true], some .bufferError⟩
      else
        let b := (dev.buffers.getD []).getD idx default
        ⟨0,
         some { b with
           bytes_used := used
           timestamp := sec * 1000000000 + usec * 1000 },
         [.ioctlDQBuf true], none⟩

/-- media_frame_t. -/
structure MediaFrame where
  data : Ptr
  size : Nat
  width : Nat
  height : Nat
  pixelformat : Nat
  timestamp : Nat
  frame_id : Nat
deriving DecidableEq, Repr, Inhabited

/-- Result of a frame-capture call.  frame = none means the frame struct
of the caller was not written. -/
structure CaptureRes where
  ret : Int
  frame : Option MediaFrame
  evs : List Event
  err : Option MediaError
deriving DecidableEq, Repr

/-- The shared tail of libmedia_capture_frame: dequeue and, on success, fill
the frame from the buffer and the cached format. -/
def captureDequeue (dev : DeviceContext) (hw : DqHw) (mp : Bool)
    (evs0 : List Event) : CaptureRes :=
  let dq := if mp then libmedia_dequeue_buffer_mp dev hw
            else libmedia_dequeue_buffer dev hw
  if dq.ret < 0 then ⟨dq.ret, none, evs0 ++ dq.evs, dq.err⟩
  else
    let b := dq.buffer.getD default
    ⟨0,
     some { data := b.start.getD 0 Ptr.null
            size := b.bytes_used
            width := dev.format.width
            height := dev.format.height
            pixelformat := dev.format.pixelformat
            timestamp := b.timestamp
            frame_id := b.index },
     evs0 ++ dq.evs, dq.err⟩

/-- libmedia_capture_frame: if timeout_ms != 0, first run the readiness
wait and return its result directly when it is <= 0 (so a timeout, an
EINTR, and a select failure propagate as-is and the frame struct is left
unwritten); then dequeue and fill the frame. -/
def libmedia_capture_frame (dev : DeviceContext) (timeout_ms : Int)
    (sel : Nat → SelectOutcome) (hw : DqHw) : CaptureRes :=
  if dev.fd < 0 then ⟨-1, none, [], some .invalidParam⟩
  else if timeout_ms ≠ 0 then
    let w := libmedia_wait_for_frame dev timeout_ms sel
    if w.ret ≤ 0 then ⟨w.ret, none, w.evs, w.err⟩
    else captureDequeue dev hw false w.evs
  else captureDequeue dev hw false []

/-- libmedia_capture_frame_mp: the multi-planar twin. -/
def libmedia_capture_frame_mp (dev : DeviceContext) (timeout_ms : Int)
    (sel : Nat → SelectOutcome) (hw : DqHw) : CaptureRes :=
  if dev.fd < 0 then ⟨-1, none, [], some .invalidParam⟩
  else if timeout_ms ≠ 0 then
    let w := libmedia_wait_for_frame dev timeout_ms sel
    if w.ret ≤ 0 then ⟨w.ret, none, w.evs, w.err⟩
    else captureDequeue dev hw true w.evs
  else captureDequeue dev hw true []

/-- The format VIDIOC_S_FMT hands back in multi-planar mode: the accepted
values, with sizeimage per accepted plane. -/
structure AcceptedFmtMP where
  width : Nat
  height : Nat
  pixelformat : Nat
  field : Nat
  num_planes : Nat
  sizeimage : Nat → Nat

/-- The accepted single-planar format: one sizeimage. -/
structure AcceptedFmtSP where
  width : Nat
  height : Nat
  pixelformat : Nat
  field : Nat
  sizeimage : Nat

/-- Result of a format call. -/
structure FormatRes where
  ret : Int
  dev : DeviceContext
  fmt : Option MediaFormat
  evs : List Event
  err : Option MediaError
deriving DecidableEq, Repr

/-- The plane_size copy-back loop of libmedia_set_format_mp: for i below
the accepted plane count, plane_size[i] := sizeimage of plane i. -/
def copyPlaneSizes (sz : Nat → Nat) : List Nat → List Nat → List Nat
  | [], ps => ps
  | i :: rest, ps => copyPlaneSizes sz rest (ps.set i (sz i))

/-- libmedia_set_format: negotiate a single-planar format (hw is the
VIDIOC_S_FMT outcome), copy the accepted values back with num_planes forced
to 1, cache the result on the device and clear the multi-planar flag. -/
def libmedia_set_format (dev : DeviceContext) (format : Option MediaFormat)
    (hw : Option AcceptedFmtSP) : FormatRes :=
  if dev.fd < 0 ∨ format.isNone then ⟨-1, dev, none, [], some .invalidParam⟩
  else
    let f := format.getD default
    match hw with
    | none => ⟨-1, dev, some f, [.ioctlSetFmt false], some .formatError⟩
    | some acc =>
      let f2 : MediaFormat :=
        { width := acc.width
          height := acc.height
          pixelformat := acc.pixelformat
          field := acc.field
          num_planes := 1
          plane_size := f.plane_size.set 0 acc.sizeimage }
      ⟨0, { dev with format := f2, use_multiplanar := false }, some f2,
       [.ioctlSetFmt false], none⟩

/-- libmedia_set_format_mp: negotiate a multi-planar format, copy back the
accepted values including the accepted plane count and every accepted
per-plane sizeimage, cache the result on the device and set the
multi-planar flag. -/
def libmedia_set_format_mp (dev : DeviceContext) (format : Option MediaFormat)
    (hw : Option AcceptedFmtMP) : FormatRes :=
  if dev.fd < 0 ∨ format.isNone then ⟨-1, dev, none, [], some .invalidParam⟩
  else
    let f := format.getD default
    match hw with
    | none => ⟨-1, dev, some f, [.ioctlSetFmt true], some .formatError⟩
    | some acc =>
      let f2 : MediaFormat :=
        { width := acc.width
          height := acc.height
          pixelformat := acc.pixelformat
          field := acc.field
          num_planes := acc.num_planes
          plane_size := copyPlaneSizes acc.sizeimage
                          (List.range acc.num_planes) f.plane_size }
      ⟨0, { dev with format := f2, use_multiplanar := true }, some f2,
       [.ioctlSetFmt true], none⟩

/-- libmedia_get_format: copy the cached format out; no hardware call. -/
def libmedia_get_format (dev : DeviceContext) : FormatRes :=
  if dev.fd < 0 then ⟨-1, dev, none, [], some .invalidParam⟩
  else ⟨0, dev, some dev.format, [], none⟩

/-- libmedia_get_format_mp delegates to libmedia_get_format. -/
def libmedia_get_format_mp (dev : DeviceContext) : FormatRes :=
  libmedia_get_format dev

/-- Result of closing a device. -/
structure CloseRes where
  ret : Int
  dev : DeviceContext
  evs : List Event
  err : Option MediaError
deriving DecidableEq, Repr

/-- First statement group of libmedia_close_device: stop streaming if the
streaming flag is set (multi-planar or single-planar according to the
mode flag), ignoring the result. -/
def closeStopPart (dev : DeviceContext) (stopOk : Bool) : StreamRes :=
  if dev.streaming then
    if dev.use_multiplanar then libmedia_stop_streaming_mp dev stopOk
    else libmedia_stop_streaming dev stopOk
  else ⟨0, dev, [], none⟩

/-- Second statement group of libmedia_close_device: free the pool if the
device holds one, passing the stored array and count. -/
def closeFreePart (d1 : DeviceContext) : BufOpRes :=
  match d1.buffers with
  | some _ => libmedia_free_buffers d1 d1.buffers (d1.buffer_count : Int)
  | none => ⟨0, d1, [], [], none⟩

/-- The body of libmedia_close_device after find_device: stop streaming if
the streaming flag is set, free the buffer pool if one is stored, and only
then close the file descriptor and mark the slot fd as -1. -/
def libmedia_close_device_ctx (dev : DeviceContext) (stopOk : Bool) : CloseRes :=
  let s1 := closeStopPart dev stopOk
  let f1 := closeFreePart s1.dev
  let d2 := f1.dev
  let err := (f1.err).orElse fun _ => s1.err
  if 0 ≤ d2.fd then
    ⟨0, { d2 with fd := -1 }, s1.evs ++ f1.evs ++ [Event.closeFdCall], err⟩
  else ⟨0, d2, s1.evs ++ f1.evs, err⟩

/-- libmedia_close_device: find_device (handle range check, then the fd
check of the slot), then the teardown body; the registry keeps its count. -/
def libmedia_close_device (st : Registry) (handle : Int) (stopOk : Bool) :
    Int × Registry × List Event :=
  if handle < 0 ∨ (st.device_count : Int) ≤ handle then
    (-1, setErr st .invalidParam, [])
  else if (st.devices.getD handle.toNat emptyDevice).fd < 0 then
    (-1, setErr st .deviceNotFound, [])
  else
    ((libmedia_close_device_ctx (st.devices.getD handle.toNat emptyDevice)
        stopOk).ret,
     { st with
       devices := st.devices.set handle.toNat
         (libmedia_close_device_ctx (st.devices.getD handle.toNat emptyDevice)
           stopOk).dev
       last_error :=
         match (libmedia_close_device_ctx
             (st.devices.getD handle.toNat emptyDevice) stopOk).err with
         | some e => e
         | none => st.last_error },
     (libmedia_close_device_ctx (st.devices.getD handle.toNat emptyDevice)
       stopOk).evs)

/-- media_session_config_t. -/
structure SessionConfig where
  device_path : Option String
  format : MediaFormat
  buffer_count : Int
  use_multiplanar : Bool
  nonblocking : Bool

/-- struct media_session: the device pointer (none models NULL), the config
and the active flag. -/
structure MediaSession where
  device : Option DeviceContext
  config : SessionConfig
  active : Bool

/-- libmedia_session_capture_frame: NULL checks, then the active gate
(MEDIA_ERROR_STREAMING_ERROR while inactive, with no hardware call and no
delegation), then delegation to the capture routine picked by the
multi-planar flag of the config. -/
def libmedia_session_capture_frame (session : Option MediaSession)
    (timeout_ms : Int) (sel : Nat → SelectOutcome) (hw : DqHw) : CaptureRes :=
  match session with
  | none => ⟨-1, none, [], some .invalidParam⟩
  | some s =>
    match s.device with
    | none => ⟨-1, none, [], some .invalidParam⟩
    | some dev =>
      if ¬ s.active then ⟨-1, none, [], some .streamingError⟩
      else if s.config.use_multiplanar then
        libmedia_capture_frame_mp dev timeout_ms sel hw
      else libmedia_capture_frame dev timeout_ms sel hw

/-- A registry-level operation trace element for the lifetime bound:
an open attempt (with its OS open outcome) or a close. -/
inductive MediaOp where
  | openDev (path : Option String) (osOpen : Option Int)
  | closeDev (handle : Int) (stopOk : Bool)

/-- Run a trace of opens and closes, counting the successful opens. -/
def runOps : Registry → List MediaOp → Registry × Nat
  | st, [] => (st, 0)
  | st, .openDev p f :: rest =>
    ((runOps (libmedia_open_device st p f).2 rest).1,
     (runOps (libmedia_open_device st p f).2 rest).2 +
       (if 0 ≤ (libmedia_open_device st p f).1 then 1 else 0))
  | st, .closeDev h ok :: rest =>
    runOps (libmedia_close_device st h ok).2.1 rest

/-- The registry right after libmedia_init from a fresh process. -/
def freshRegistry : Registry :=
  (libmedia_init { devices := [], device_count := 0, initialized := false,
                   last_error := MediaError.noError }).2

/-! Generic facts about List.set and List.getD used throughout. -/

theorem getD_set_ne {α : Type} (l : List α) (i j : Nat) (x d : α) (h : i ≠ j) :
    (l.set i x).getD j d = l.getD j d := by
  simp [List.getD_eq_getElem?_getD, List.getElem?_set, h]

theorem getD_set_self {α : Type} (l : List α) (i : Nat) (x d : α)
    (h : i < l.length) : (l.set i x).getD i d = x := by
  simp [List.getD_eq_getElem?_getD, List.getElem?_set, h]

theorem set_getD_self {α : Type} (l : List α) (i : Nat) (d : α) :
    l.set i (l.getD i d) = l := by
  induction l generalizing i with
  | nil => rfl
  | cons a t ih =>
    cases i with
    | zero => rfl
    | succ n => simpa [List.set, List.getD] using ih n

/-! Facts about the unmap loops, leading to the idempotence of
libmedia_free_buffers. -/

theorem freePlanesAux_getD (i : Nat) (ps : List Nat) (st : List Ptr) (q : Nat) :
    (freePlanesAux i ps st).1.getD q Ptr.null = st.getD q Ptr.null ∨
    (freePlanesAux i ps st).1.getD q Ptr.null = Ptr.null := by
  induction ps generalizing st with
  | nil => left; rfl
  | cons p rest ih =>
    by_cases hm : (st.getD p Ptr.null).isMapped
    · simp only [freePlanesAux, hm, if_true]
      rcases ih (st.set p Ptr.null) with h | h


      · rw [h]
        by_cases hpq : p = q
        · subst hpq
          by_cases hl : p < st.length
          · right; exact getD_set_self _ _ _ _ hl
          · left; rw [List.set_eq_of_length_le (le_of_not_lt hl)]
        · left; exact getD_set_ne _ _ _ _ _ hpq
      · right; exact h
    · simp only [freePlanesAux, hm, if_false]
      exact ih st

theorem freePlanesAux_not_mapped (i : Nat) (ps : List Nat) (st : List Ptr)
    (p : Nat) (hp : p ∈ ps) :
    ((freePlanesAux i ps st).1.getD p Ptr.null).isMapped = false := by
  induction ps generalizing st with
  | nil => cases hp
  | cons q rest ih =>
    by_cases hm : (st.getD q Ptr.null).isMapped
    · simp only [freePlanesAux, hm, if_true]
      rcases List.mem_cons.mp hp with h | h
      · subst h
        rcases freePlanesAux_getD i rest (st.set p Ptr.null) p with h2 | h2
        · rw [h2]
          by_cases hl : p < st.length
          · rw [getD_set_self _ _ _ _ hl]; rfl
          · rw [List.set_eq_of_length_le (le_of_not_lt hl)]
            rw [List.getD_eq_getElem?_getD]
            rw [List.getElem?_eq_none (le_of_not_lt hl)]
            rfl
        · rw [h2]; rfl
      · exact ih (st.set q Ptr.null) h
    · simp only [freePlanesAux, hm, Bool.false_eq_true, if_false]
      rcases List.mem_cons.mp hp with h | h
      · subst h
        rcases freePlanesAux_getD i rest st p with h2 | h2
        · rw [h2]; simpa using hm
        · rw [h2]; rfl
      · exact ih st h

theorem freePlanesAux_of_cleared (i : Nat) (ps : List Nat) (st : List Ptr)
    (h : ∀ p ∈ ps, (st.getD p Ptr.null).isMapped = false) :
    freePlanesAux i ps st = (st, []) := by
  induction ps with
  | nil => rfl
  | cons p rest ih =>
    have hp : (st.getD p Ptr.null).isMapped = false :=
      h p (List.mem_cons_self p rest)
    simp only [freePlanesAux, hp, Bool.false_eq_true, if_false]
    exact ih fun q hq => h q (List.mem_cons_of_mem p hq)

/-- Buffer i of the array holds no mapped pointer among its declared
planes. -/
def clearedAt (arr : List MediaBuffer) (i : Nat) : Prop :=
  ∀ p, p < (arr.getD i default).num_planes →
    ((arr.getD i default).start.getD p Ptr.null).isMapped = false

theorem freeLoop_preserves_cleared (idxs : List Nat) (arr : List MediaBuffer)
    (j : Nat) (h : clearedAt arr j) : clearedAt (freeLoop idxs arr).1 j := by
  induction idxs generalizing arr with
  | nil => exact h
  | cons i rest ih =>
    simp only [freeLoop]
    apply ih
    by_cases hij : i = j
    · subst hij
      by_cases hl : i < arr.length
      · intro p hp
        rw [getD_set_self _ _ _ _ hl] at hp ⊢
        exact freePlanesAux_not_mapped _ _ _ _ (List.mem_range.mpr hp)
      · rw [List.set_eq_of_length_le (le_of_not_lt hl)]
        exact h
    · intro p hp
      rw [getD_set_ne _ _ _ _ _ hij] at hp ⊢
      exact h p hp

theorem freeLoop_clearedAt_of_mem (idxs : List Nat) (arr : List MediaBuffer)
    (i : Nat) (hi : i ∈ idxs) : clearedAt (freeLoop idxs arr).1 i := by
  induction idxs generalizing arr with
  | nil => cases hi
  | cons k rest ih =>
    simp only [freeLoop]
    rcases List.mem_cons.mp hi with h | h
    · subst h
      apply freeLoop_preserves_cleared
      by_cases hl : i < arr.length
      · intro p hp
        rw [getD_set_self _ _ _ _ hl] at hp ⊢
        exact freePlanesAux_not_mapped _ _ _ _ (List.mem_range.mpr hp)
      · rw [List.set_eq_of_length_le (le_of_not_lt hl)]
        intro p hp
        have : arr.getD i default = default := by
          rw [List.getD_eq_getElem?_getD, List.getElem?_eq_none (le_of_not_lt hl)]
          rfl
        rw [this] at hp
        exact absurd hp (by simp [default, Inhabited.default])
    · exact ih _ h

theorem freeLoop_of_cleared (idxs : List Nat) (arr : List MediaBuffer)
    (h : ∀ i ∈ idxs, clearedAt arr i) : freeLoop idxs arr = (arr, []) := by
  induction idxs with
  | nil => rfl
  | cons i rest ih =>
    have hci : clearedAt arr i := h i (List.mem_cons_self i rest)
    have hfp : freePlanesAux i (List.range (arr.getD i default).num_planes)
        (arr.getD i default).start = ((arr.getD i default).start, []) := by
      apply freePlanesAux_of_cleared
      intro p hp
      exact hci p (List.mem_range.mp hp)
    have harr : arr.set i { arr.getD i default with
        start := (arr.getD i default).start } = arr := by
      have heta : ({ arr.getD i default with
          start := (arr.getD i default).start } : MediaBuffer) =
          arr.getD i default := rfl
      rw [heta]
      exact set_getD_self arr i default
    have ihh : freeLoop rest arr = (arr, []) :=
      ih fun j hj => h j (List.mem_cons_of_mem i hj)
    simp only [freeLoop, hfp]
    rw [harr, ihh]
    rfl

/-! Concrete sample states used by witnesses and counterexamples. -/

/-- A 640x480 YUYV format as the library caches it. -/
def sampleFmt : MediaFormat :=
  { width := 640
    height := 480
    pixelformat := 0x56595559
    field := 1
    num_planes := 1
    plane_size := 614400 :: List.replicate 7 0 }

/-- A single-planar buffer whose plane 0 is mapped. -/
def mappedBuf (i : Nat) : MediaBuffer :=
  { start := Ptr.mapped (4096 * (i + 1)) :: List.replicate 7 Ptr.null
    length := 614400 :: List.replicate 7 0
    num_planes := 1
    index := i
    bytes_used := 0
    timestamp := 0 }

/-- An all-NULL caller buffer slot, as a freshly calloc-ed array entry. -/
def blankBuf : MediaBuffer :=
  { start := List.replicate 8 Ptr.null
    length := List.replicate 8 0
    num_planes := 0
    index := 0
    bytes_used := 0
    timestamp := 0 }

/-- An open device with no pool and streaming off. -/
def devIdle : DeviceContext :=
  { fd := 3
    device_path := "/dev/video0"
    format := sampleFmt
    buffers := none
    buffer_count := 0
    streaming := false
    use_multiplanar := false }

/-- An open device owning a two-buffer mapped pool. -/
def devWithPool : DeviceContext :=
  { devIdle with
    buffers := some [mappedBuf 0, mappedBuf 1]
    buffer_count := 2 }

/-- devWithPool with streaming on. -/
def devStreaming : DeviceContext :=
  { devWithPool with streaming := true }

/-- The happy-path evaluation of libmedia_free_buffers. -/
theorem free_buffers_eq (dev : DeviceContext) (arr : List MediaBuffer)
    (count : Int) (hfd : 0 ≤ dev.fd) (hc : 0 < count) :
    libmedia_free_buffers dev (some arr) count =
      ⟨0, { dev with buffers := none, buffer_count := 0 },
       (freeLoop (List.range count.toNat) arr).1,
       (freeLoop (List.range count.toNat) arr).2, none⟩ := by
  have hg : ¬ (dev.fd < 0 ∨ (some arr : Option (List MediaBuffer)).isNone ∨
      count ≤ 0) := by
    rintro (h | h | h)
    · exact absurd hfd (not_le.mpr h)
    · simp at h
    · exact absurd hc (not_lt.mpr h)
  unfold libmedia_free_buffers
  rw [if_neg hg]
  rfl

/-- Claim C5: libmedia_free_buffers is idempotent: a second run over the
same (already freed) array performs no munmap at all (its event list is
empty), leaves the array unchanged, and still returns 0. -/
theorem c5_free_buffers_idempotent (dev : DeviceContext)
    (arr : List MediaBuffer) (count : Int) (hfd : 0 ≤ dev.fd)
    (hc : 0 < count) :
    (libmedia_free_buffers dev (some arr) count).ret = 0 ∧
    (libmedia_free_buffers (libmedia_free_buffers dev (some arr) count).dev
      (some (libmedia_free_buffers dev (some arr) count).arr) count).ret = 0 ∧
    (libmedia_free_buffers (libmedia_free_buffers dev (some arr) count).dev
      (some (libmedia_free_buffers dev (some arr) count).arr) count).evs = [] ∧
    (libmedia_free_buffers (libmedia_free_buffers dev (some arr) count).dev
      (some (libmedia_free_buffers dev (some arr) count).arr) count).arr =
      (libmedia_free_buffers dev (some arr) count).arr := by
  have h1 := free_buffers_eq dev arr count hfd hc
  have hcl : freeLoop (List.range count.toNat)
      (freeLoop (List.range count.toNat) arr).1 =
      ((freeLoop (List.range count.toNat) arr).1, []) :=
    freeLoop_of_cleared _ _ fun i hi => freeLoop_clearedAt_of_mem _ _ i hi
  have h2 := free_buffers_eq { dev with buffers := none, buffer_count := 0 }
      (freeLoop (List.range count.toNat) arr).1 count (by simpa using hfd) hc
  simp only [h1, h2, hcl]
  exact ⟨trivial, trivial, trivial, trivial⟩

/-- Witness for C5 at a concrete device and pool. -/
theorem c5_free_buffers_idempotent_witness :
    (0:Int) ≤ devWithPool.fd ∧ (0:Int) < 2 ∧
    (libmedia_free_buffers
      (libmedia_free_buffers devWithPool (some [mappedBuf 0, mappedBuf 1]) 2).dev
      (some (libmedia_free_buffers devWithPool
        (some [mappedBuf 0, mappedBuf 1]) 2).arr) 2).evs = [] :=
  ⟨by decide, by decide,
   (c5_free_buffers_idempotent devWithPool [mappedBuf 0, mappedBuf 1] 2
     (by decide) (by decide)).2.2.1⟩

/-! Event-shape facts about the unmap loops and the teardown order of
libmedia_close_device. -/

theorem freePlanesAux_evs_munmap (i : Nat) (ps : List Nat) (st : List Ptr) :
    ∀ e ∈ (freePlanesAux i ps st).2, ∃ a b, e = Event.munmapCall a b := by
  induction ps generalizing st with
  | nil => intro e he; cases he
  | cons p rest ih =>
    by_cases hm : (st.getD p Ptr.null).isMapped
    · simp only [freePlanesAux, hm, if_true]
      intro e he
      rcases List.mem_cons.mp he with h | h
      · exact ⟨i, p, h⟩
      · exact ih _ e h
    · simp only [freePlanesAux, hm, Bool.false_eq_true, if_false]
      exact ih st

theorem freeLoop_evs_munmap (idxs : List Nat) (arr : List MediaBuffer) :
    ∀ e ∈ (freeLoop idxs arr).2, ∃ a b, e = Event.munmapCall a b := by
  induction idxs generalizing arr with
  | nil => intro e he; cases he
  | cons i rest ih =>
    simp only [freeLoop]
    intro e he
    rcases List.mem_append.mp he with h | h
    · exact freePlanesAux_evs_munmap _ _ _ e h
    · exact ih _ e h

theorem freePlanesAux_mem_head (i p : Nat) (rest : List Nat) (st : List Ptr)
    (hm : (st.getD p Ptr.null).isMapped = true) :
    Event.munmapCall i p ∈ (freePlanesAux i (p :: rest) st).2 := by
  simp only [freePlanesAux, hm, if_true]
  exact List.mem_cons_self _ _

theorem freeLoop_munmap_mem (count : Nat) (arr : List MediaBuffer)
    (hc : 0 < count) (hnp : 0 < (arr.getD 0 default).num_planes)
    (hm : ((arr.getD 0 default).start.getD 0 Ptr.null).isMapped = true) :
    Event.munmapCall 0 0 ∈ (freeLoop (List.range count) arr).2 := by
  rcases count with _ | k
  · cases hc
  · rw [List.range_succ_eq_map]
    simp only [freeLoop]
    apply List.mem_append.mpr
    left
    rcases hnp2 : (arr.getD 0 default).num_planes with _ | m
    · rw [hnp2] at hnp; cases hnp
    · rw [List.range_succ_eq_map]
      exact freePlanesAux_mem_head 0 0 _ _ hm

/-- Evaluation of libmedia_stop_streaming on a live device. -/
theorem stop_streaming_eq (dev : DeviceContext) (hwOk : Bool)
    (hfd : 0 ≤ dev.fd) :
    libmedia_stop_streaming dev hwOk =
      if hwOk then
        ⟨0, { dev with streaming := false }, [.ioctlStreamOff false], none⟩
      else ⟨-1, dev, [.ioctlStreamOff false], some .streamingError⟩ := by
  unfold libmedia_stop_streaming
  rw [if_neg (not_lt.mpr hfd)]

/-- Evaluation of libmedia_stop_streaming_mp on a live device. -/
theorem stop_streaming_mp_eq (dev : DeviceContext) (hwOk : Bool)
    (hfd : 0 ≤ dev.fd) :
    libmedia_stop_streaming_mp dev hwOk =
      if hwOk then
        ⟨0, { dev with streaming := false }, [.ioctlStreamOff true], none⟩
      else ⟨-1, dev, [.ioctlStreamOff true], some .streamingError⟩ := by
  unfold libmedia_stop_streaming_mp
  rw [if_neg (not_lt.mpr hfd)]

/-- Behaviour of the stop step of close: it touches only the streaming flag,
emits exactly one stream-off signal iff the device was streaming, and on a
successful stop the flag is cleared. -/
theorem closeStopPart_spec (dev : DeviceContext) (stopOk : Bool)
    (hfd : 0 ≤ dev.fd) :
    (closeStopPart dev stopOk).dev.fd = dev.fd ∧
    (closeStopPart dev stopOk).dev.buffers = dev.buffers ∧
    (closeStopPart dev stopOk).dev.buffer_count = dev.buffer_count ∧
    (closeStopPart dev stopOk).evs =
      (if dev.streaming then [Event.ioctlStreamOff dev.use_multiplanar] else []) ∧
    (stopOk = true → (closeStopPart dev stopOk).dev.streaming = false) ∧
    (dev.streaming = false → (closeStopPart dev stopOk).dev.streaming = false) := by
  by_cases hs : dev.streaming = true
  · by_cases hmp : dev.use_multiplanar = true
    · simp only [closeStopPart, hs, hmp, if_true,
        stop_streaming_mp_eq dev stopOk hfd]
      by_cases hok : stopOk = true
      · simp [hok]
      · simp [hok, hs]
    · simp only [closeStopPart, hs, if_true, Bool.not_eq_true] at *
      simp only [closeStopPart, hs, hmp, Bool.false_eq_true, if_true, if_false,
        stop_streaming_eq dev stopOk hfd]
      by_cases hok : stopOk = true
      · simp [hok, hmp]
      · simp [hok, hs, hmp]
  · simp only [Bool.not_eq_true] at hs
    simp [closeStopPart, hs]

/-- Behaviour of the free step of close: it clears the stored pool, emits
only munmap events, and emits at least one exactly when a pool was stored
(given the pool well-formedness of a successful allocation). -/
theorem closeFreePart_spec (d1 : DeviceContext) (hfd : 0 ≤ d1.fd)
    (hwf : ∀ arr, d1.buffers = some arr →
      0 < d1.buffer_count ∧ 0 < (arr.getD 0 default).num_planes ∧
      ((arr.getD 0 default).start.getD 0 Ptr.null).isMapped = true) :
    (closeFreePart d1).dev.fd = d1.fd ∧
    (closeFreePart d1).dev.buffers = none ∧
    (closeFreePart d1).dev.streaming = d1.streaming ∧
    (∀ e ∈ (closeFreePart d1).evs, ∃ i p, e = Event.munmapCall i p) ∧
    (((closeFreePart d1).evs ≠ []) ↔ d1.buffers.isSome = true) := by
  cases hb : d1.buffers with
  | none =>
    have heqn : closeFreePart d1 = ⟨0, d1, [], [], none⟩ := by
      simp [closeFreePart, hb]
    rw [heqn]
    refine ⟨rfl, hb, rfl, ?_, ?_⟩
    · intro e he
      cases he
    · simp
  | some arr =>
    obtain ⟨hc, hnp, hm⟩ := hwf arr hb
    have hci : (0:Int) < (d1.buffer_count : Int) := Int.natCast_pos.mpr hc
    have heq : closeFreePart d1 =
        ⟨0, { d1 with buffers := none, buffer_count := 0 },
         (freeLoop (List.range (d1.buffer_count : Int).toNat) arr).1,
         (freeLoop (List.range (d1.buffer_count : Int).toNat) arr).2, none⟩ := by
      simp only [closeFreePart, hb]
      exact free_buffers_eq d1 arr _ hfd hci
    have htn : ((d1.buffer_count : Int)).toNat = d1.buffer_count := by
      simp
    rw [heq]
    refine ⟨rfl, rfl, rfl, freeLoop_evs_munmap _ _, ?_⟩
    simp only [Option.isSome_some, iff_true]
    apply List.ne_nil_of_mem
    rw [htn]
    exact freeLoop_munmap_mem _ _ hc hnp hm

/-- Claim C4: the teardown order of libmedia_close_device: the event trace
is (stream-off if and only if streaming) followed by (munmaps if and only
if a pool is stored) followed by the fd release, which is the strictly
final action; the device ends closed with no pool, and with streaming
cleared whenever the stop signal was accepted. -/
theorem c4_close_device_teardown_order (dev : DeviceContext) (stopOk : Bool)
    (hfd : 0 ≤ dev.fd)
    (hwf : ∀ arr, dev.buffers = some arr →
      0 < dev.buffer_count ∧ 0 < (arr.getD 0 default).num_planes ∧
      ((arr.getD 0 default).start.getD 0 Ptr.null).isMapped = true) :
    ∃ a b,
      (libmedia_close_device_ctx dev stopOk).evs = a ++ b ++ [Event.closeFdCall] ∧
      (∀ e ∈ a, e = Event.ioctlStreamOff dev.use_multiplanar) ∧
      (∀ e ∈ b, ∃ i p, e = Event.munmapCall i p) ∧
      ((a ≠ []) ↔ dev.streaming = true) ∧
      ((b ≠ []) ↔ dev.buffers.isSome = true) ∧
      (libmedia_close_device_ctx dev stopOk).ret = 0 ∧
      (libmedia_close_device_ctx dev stopOk).dev.fd = -1 ∧
      (libmedia_close_device_ctx dev stopOk).dev.buffers = none ∧
      (stopOk = true →
        (libmedia_close_device_ctx dev stopOk).dev.streaming = false) := by
  obtain ⟨h1, h2, h3, h4, h5, h6⟩ := closeStopPart_spec dev stopOk hfd
  have hfd1 : 0 ≤ (closeStopPart dev stopOk).dev.fd := by rw [h1]; exact hfd
  have hwf1 : ∀ arr, (closeStopPart dev stopOk).dev.buffers = some arr →
      0 < (closeStopPart dev stopOk).dev.buffer_count ∧
      0 < (arr.getD 0 default).num_planes ∧
      ((arr.getD 0 default).start.getD 0 Ptr.null).isMapped = true := by
    intro arr harr
    rw [h2] at harr
    rw [h3]
    exact hwf arr harr
  obtain ⟨g1, g2, g3, g4, g5⟩ :=
    closeFreePart_spec (closeStopPart dev stopOk).dev hfd1 hwf1
  have hfd2 : 0 ≤ (closeFreePart (closeStopPart dev stopOk).dev).dev.fd := by
    rw [g1, h1]; exact hfd
  have hclose : libmedia_close_device_ctx dev stopOk =
      ⟨0, { (closeFreePart (closeStopPart dev stopOk).dev).dev with fd := -1 },
       (closeStopPart dev stopOk).evs ++
         (closeFreePart (closeStopPart dev stopOk).dev).evs ++ [Event.closeFdCall],
       ((closeFreePart (closeStopPart dev stopOk).dev).err).orElse
         fun _ => (closeStopPart dev stopOk).err⟩ := by
    unfold libmedia_close_device_ctx
    rw [if_pos hfd2]
  refine ⟨(if dev.streaming then [Event.ioctlStreamOff dev.use_multiplanar] else []),
          (closeFreePart (closeStopPart dev stopOk).dev).evs, ?_, ?_, ?_, ?_, ?_, ?_, ?_, ?_, ?_⟩
  · rw [hclose, h4]
  · by_cases hs : dev.streaming = true
    · simp [hs]
    · simp only [Bool.not_eq_true] at hs
      simp [hs]
  · exact g4
  · by_cases hs : dev.streaming = true
    · simp [hs]
    · simp only [Bool.not_eq_true] at hs
      simp [hs]
  · rw [g5, h2]
  · rw [hclose]
  · rw [hclose]
  · rw [hclose]
    exact g2
  · intro hok
    rw [hclose]
    have : (closeFreePart (closeStopPart dev stopOk).dev).dev.streaming =
        (closeStopPart dev stopOk).dev.streaming := g3
    simpa [this] using h5 hok

/-- Witness for C4 on a streaming device with a mapped pool. -/
theorem c4_close_device_teardown_order_witness :
    (0:Int) ≤ devStreaming.fd ∧
    (libmedia_close_device_ctx devStreaming true).ret = 0 ∧
    (libmedia_close_device_ctx devStreaming true).dev.fd = -1 := by
  have h := c4_close_device_teardown_order devStreaming true (by decide)
    (by intro arr harr; refine ⟨by decide, ?_, ?_⟩ <;>
        · simp only [devStreaming, devWithPool] at harr
          cases harr
          decide)
  obtain ⟨a, b, _, _, _, _, _, hret, hfd, _, _⟩ := h
  exact ⟨by decide, hret, hfd⟩

/-- Claim C6: both dequeue paths check the hardware-reported index against
the pool size known to the device before the pool array is read: an out-of-range index
yields ret -1 with MEDIA_ERROR_BUFFER_ERROR and no buffer is produced, and
any successful dequeue implies the reported index was in range. -/
theorem c6_dequeue_index_checked (dev : DeviceContext) (hw : DqHw)
    (hfd : 0 ≤ dev.fd) :
    (∀ idx used sec usec, hw = .done idx used sec usec →
      dev.buffer_count ≤ idx →
      libmedia_dequeue_buffer dev hw =
        ⟨-1, none, [Event.ioctlDQBuf false], some .bufferError⟩ ∧
      libmedia_dequeue_buffer_mp dev hw =
        ⟨-1, none, [Event.ioctlDQBuf true], some .bufferError⟩) ∧
    ((libmedia_dequeue_buffer dev hw).ret = 0 →
      ∃ idx used sec usec, hw = .done idx used sec usec ∧
        idx < dev.buffer_count) ∧
    ((libmedia_dequeue_buffer_mp dev hw).ret = 0 →
      ∃ idx used sec usec, hw = .done idx used sec usec ∧
        idx < dev.buffer_count) := by
  refine ⟨?_, ?_, ?_⟩
  · intro idx used sec usec hdone hge
    subst hdone
    constructor
    · simp [libmedia_dequeue_buffer, not_lt.mpr hfd, hge]
    · simp [libmedia_dequeue_buffer_mp, not_lt.mpr hfd, hge]
  · intro hret
    cases hw with
    | fail e =>
      exfalso
      cases e <;> simp [libmedia_dequeue_buffer, not_lt.mpr hfd] at hret
    | done idx used sec usec =>
      by_cases hge : dev.buffer_count ≤ idx
      · exfalso
        simp [libmedia_dequeue_buffer, not_lt.mpr hfd, hge] at hret
      · exact ⟨idx, used, sec, usec, rfl, not_le.mp hge⟩
  · intro hret
    cases hw with
    | fail e =>
      exfalso
      cases e <;> simp [libmedia_dequeue_buffer_mp, not_lt.mpr hfd] at hret
    | done idx used sec usec =>
      by_cases hge : dev.buffer_count ≤ idx
      · exfalso
        simp [libmedia_dequeue_buffer_mp, not_lt.mpr hfd, hge] at hret
      · exact ⟨idx, used, sec, usec, rfl, not_le.mp hge⟩

/-- Witness for C6: a hardware reply naming slot 5 of a 2-buffer pool is
rejected with a buffer error. -/
theorem c6_dequeue_index_checked_witness :
    libmedia_dequeue_buffer devWithPool (DqHw.done 5 0 0 0) =
      ⟨-1, none, [Event.ioctlDQBuf false], some .bufferError⟩ :=
  ((c6_dequeue_index_checked devWithPool (DqHw.done 5 0 0 0) (by decide)).1
    5 0 0 0 rfl (by decide)).1

/-- A session configuration matching the sample device. -/
def sampleConfig : SessionConfig :=
  { device_path := some "/dev/video0"
    format := sampleFmt
    buffer_count := 4
    use_multiplanar := false
    nonblocking := false }

/-- A fully constructed but not started session. -/
def inactiveSession : MediaSession :=
  { device := some devWithPool
    config := sampleConfig
    active := false }

/-- Claim C8: capturing through a session whose active flag is clear fails
with MEDIA_ERROR_STREAMING_ERROR, performs no hardware action and never
delegates to the endpoint capture routine. -/
theorem c8_session_capture_inactive (sess : MediaSession)
    (dev : DeviceContext) (timeout_ms : Int) (sel : Nat → SelectOutcome)
    (hw : DqHw) (hdev : sess.device = some dev) (hact : sess.active = false) :
    libmedia_session_capture_frame (some sess) timeout_ms sel hw =
      ⟨-1, none, [], some .streamingError⟩ := by
  simp [libmedia_session_capture_frame, hdev, hact]

/-- Witness for C8 on a concrete inactive session. -/
theorem c8_session_capture_inactive_witness :
    libmedia_session_capture_frame (some inactiveSession) 1000
      (fun _ => SelectOutcome.ready) (DqHw.done 0 100 0 0) =
      ⟨-1, none, [], some .streamingError⟩ :=
  c8_session_capture_inactive inactiveSession devWithPool 1000
    (fun _ => SelectOutcome.ready) (DqHw.done 0 100 0 0) rfl rfl

/-- A select trace that always times out. -/
def selTimeoutTrace : Nat → SelectOutcome := fun _ => .timedOut

/-- A select trace that always reports readiness. -/
def selReadyTrace : Nat → SelectOutcome := fun _ => .ready

/-- A select trace whose first call is interrupted (EINTR) and whose later
calls would report readiness, so a retrying wait would succeed. -/
def selEintrTrace : Nat → SelectOutcome :=
  fun k => if k = 0 then .eintr else .ready

/-- Claim C2 evaluated at its failing input: on a streaming device whose
hardware never completes a buffer, a 1000 ms capture returns 0 with the
frame struct unwritten, while a successful capture also returns 0 — the
return value does not distinguish timeout from success (media.h documents
0 as the success return of capture).  A ready-then-EAGAIN dequeue returns
-1 (the error return) with the timeout code stored.  -/
theorem c2_capture_timeout_conflated_with_success :
    (libmedia_capture_frame devStreaming 1000 selTimeoutTrace (.fail true)).ret
      = 0 ∧
    (libmedia_capture_frame devStreaming 1000 selTimeoutTrace (.fail true)).frame
      = none ∧
    (libmedia_capture_frame devStreaming 1000 selTimeoutTrace (.fail true)).err
      = some .timeout ∧
    (libmedia_capture_frame devStreaming 1000 selReadyTrace
      (.done 0 100 0 0)).ret = 0 ∧
    (libmedia_capture_frame devStreaming 1000 selReadyTrace
      (.done 0 100 0 0)).frame.isSome = true ∧
    (libmedia_capture_frame devStreaming 1000 selReadyTrace (.fail true)).ret
      = -1 ∧
    (libmedia_capture_frame devStreaming 1000 selReadyTrace (.fail true)).err
      = some .timeout ∧
    (libmedia_capture_frame_mp devStreaming 1000 selTimeoutTrace
      (.fail true)).ret = 0 ∧
    (libmedia_capture_frame_mp devStreaming 1000 selTimeoutTrace
      (.fail true)).frame = none ∧
    (libmedia_capture_frame_mp devStreaming 1000 selReadyTrace
      (.done 0 100 0 0)).ret = 0 := by
  decide

/-- Counterexample for C3: an EINTR-interrupted wait on a live device is
not retried (even though the very next select call would report ready);
it performs exactly one select call and returns the very same timeout
outcome as an elapsed timeout, so the interruption is surfaced to the
caller as a timeout. -/
theorem c3_counterexample :
    libmedia_wait_for_frame devStreaming 1000 selEintrTrace =
      libmedia_wait_for_frame devStreaming 1000 selTimeoutTrace ∧
    (libmedia_wait_for_frame devStreaming 1000 selEintrTrace).ret = 0 ∧
    (libmedia_wait_for_frame devStreaming 1000 selEintrTrace).err =
      some .timeout ∧
    (libmedia_wait_for_frame devStreaming 1000 selEintrTrace).evs =
      [Event.selectCall] := by
  decide

/-- Claim C3 as amended: when select is interrupted by EINTR, the readiness
wait performs no retry: it makes exactly one select call and returns the
timeout outcome (ret 0, MEDIA_ERROR_TIMEOUT), and a capture with a nonzero
timeout propagates exactly that outcome to its caller. -/
theorem c3_amended_eintr_reported_as_timeout (dev : DeviceContext)
    (timeout_ms : Int) (sel : Nat → SelectOutcome) (hw : DqHw)
    (hfd : 0 ≤ dev.fd) (he : sel 0 = .eintr) :
    libmedia_wait_for_frame dev timeout_ms sel =
      ⟨0, [Event.selectCall], some .timeout⟩ ∧
    (timeout_ms ≠ 0 →
      libmedia_capture_frame dev timeout_ms sel hw =
        ⟨0, none, [Event.selectCall], some .timeout⟩) := by
  have hw1 : libmedia_wait_for_frame dev timeout_ms sel =
      ⟨0, [Event.selectCall], some .timeout⟩ := by
    unfold libmedia_wait_for_frame
    rw [if_neg (not_lt.mpr hfd), he]
  refine ⟨hw1, ?_⟩
  intro ht
  unfold libmedia_capture_frame
  rw [if_neg (not_lt.mpr hfd), if_pos ht, hw1]
  rfl

/-- Witness for the amended C3 at a concrete device and trace. -/
theorem c3_amended_eintr_reported_as_timeout_witness :
    libmedia_capture_frame devStreaming 1000 selEintrTrace (.fail true) =
      ⟨0, none, [Event.selectCall], some .timeout⟩ :=
  (c3_amended_eintr_reported_as_timeout devStreaming 1000 selEintrTrace
    (.fail true) (by decide) rfl).2 (by decide)

/-- Counterexample for C7: on a device with no allocated pool,
libmedia_start_streaming succeeds (ret 0, streaming flag set) whenever
hardware accepts STREAMON — no state error is raised; and
libmedia_free_buffers on a device that is still streaming is not rejected:
it returns 0 and actually unmaps a plane. -/
theorem c7_counterexample :
    ¬ ((libmedia_start_streaming devIdle true).ret < 0 ∨
       (libmedia_free_buffers devStreaming
          (some [mappedBuf 0, mappedBuf 1]) 2).ret < 0) ∧
    (libmedia_start_streaming devIdle true).ret = 0 ∧
    (libmedia_start_streaming devIdle true).dev.streaming = true ∧
    devIdle.buffers = none ∧
    (libmedia_free_buffers devStreaming
      (some [mappedBuf 0, mappedBuf 1]) 2).ret = 0 ∧
    devStreaming.streaming = true ∧
    0 < munmapCount (libmedia_free_buffers devStreaming
      (some [mappedBuf 0, mappedBuf 1]) 2).evs := by
  decide

/-- Claim C7 as amended: the library enforces no ordering between pool
allocation and streaming: stream-start on a device with no pool is simply
forwarded to hardware (succeeding with the flag set when hardware accepts,
failing with MEDIA_ERROR_STREAMING_ERROR — not a distinct state error —
when hardware rejects), and freeing the pool while the streaming flag is
set proceeds unconditionally, returning 0 and leaving the flag set. -/
theorem c7_amended_no_state_gating :
    (∀ dev : DeviceContext, ∀ hwOk : Bool, 0 ≤ dev.fd → dev.buffers = none →
      (hwOk = true → (libmedia_start_streaming dev hwOk).ret = 0 ∧
        (libmedia_start_streaming dev hwOk).dev.streaming = true) ∧
      (hwOk = false → (libmedia_start_streaming dev hwOk).ret = -1 ∧
        (libmedia_start_streaming dev hwOk).err = some .streamingError)) ∧
    (∀ dev : DeviceContext, ∀ arr : List MediaBuffer, ∀ count : Int,
      0 ≤ dev.fd → 0 < count → dev.streaming = true →
      (libmedia_free_buffers dev (some arr) count).ret = 0 ∧
      (libmedia_free_buffers dev (some arr) count).dev.streaming = true) := by
  constructor
  · intro dev hwOk hfd _
    constructor
    · intro hok
      subst hok
      unfold libmedia_start_streaming
      rw [if_neg (not_lt.mpr hfd)]
      exact ⟨rfl, rfl⟩
    · intro hok
      subst hok
      unfold libmedia_start_streaming
      rw [if_neg (not_lt.mpr hfd)]
      exact ⟨rfl, rfl⟩
  · intro dev arr count hfd hc hs
    rw [free_buffers_eq dev arr count hfd hc]
    exact ⟨rfl, hs⟩

/-- Witness for the amended C7 at concrete states. -/
theorem c7_amended_no_state_gating_witness :
    (libmedia_start_streaming devIdle true).ret = 0 ∧
    (libmedia_free_buffers devStreaming
      (some [mappedBuf 0, mappedBuf 1]) 2).dev.streaming = true :=
  ⟨((c7_amended_no_state_gating.1 devIdle true (by decide) rfl).1 rfl).1,
   (c7_amended_no_state_gating.2 devStreaming [mappedBuf 0, mappedBuf 1] 2
     (by decide) (by decide) (by decide)).2⟩

/-! The plane-size copy-back loop of the multi-planar format negotiation. -/

theorem copyPlaneSizes_getD_not_mem (sz : Nat → Nat) (idxs : List Nat)
    (ps : List Nat) (i : Nat) (hi : i ∉ idxs) :
    (copyPlaneSizes sz idxs ps).getD i 0 = ps.getD i 0 := by
  induction idxs generalizing ps with
  | nil => rfl
  | cons j rest ih =>
    have hij : j ≠ i := fun h => hi (h ▸ List.mem_cons_self j rest)
    simp only [copyPlaneSizes]
    rw [ih _ fun h => hi (List.mem_cons_of_mem j h)]
    exact getD_set_ne _ _ _ _ _ hij

theorem copyPlaneSizes_getD_mem (sz : Nat → Nat) (idxs : List Nat)
    (ps : List Nat) (i : Nat) (hnd : idxs.Nodup) (hi : i ∈ idxs)
    (hlen : i < ps.length) :
    (copyPlaneSizes sz idxs ps).getD i 0 = sz i := by
  induction idxs generalizing ps with
  | nil => cases hi
  | cons j rest ih =>
    simp only [copyPlaneSizes]
    rcases List.mem_cons.mp hi with h | h
    · subst h
      have hnotin : i ∉ rest := (List.nodup_cons.mp hnd).1
      rw [copyPlaneSizes_getD_not_mem sz rest _ i hnotin]
      exact getD_set_self _ _ _ _ hlen
    · exact ih _ (List.nodup_cons.mp hnd).2 h
        (by rw [List.length_set]; exact hlen)

/-- Evaluation of libmedia_set_format_mp on a live device when hardware
accepts the format. -/
theorem set_format_mp_eq (dev : DeviceContext) (f : MediaFormat)
    (acc : AcceptedFmtMP) (hfd : 0 ≤ dev.fd) :
    libmedia_set_format_mp dev (some f) (some acc) =
      ⟨0,
       { dev with
         format :=
           { width := acc.width
             height := acc.height
             pixelformat := acc.pixelformat
             field := acc.field
             num_planes := acc.num_planes
             plane_size := copyPlaneSizes acc.sizeimage
               (List.range acc.num_planes) f.plane_size }
         use_multiplanar := true },
       some { width := acc.width
              height := acc.height
              pixelformat := acc.pixelformat
              field := acc.field
              num_planes := acc.num_planes
              plane_size := copyPlaneSizes acc.sizeimage
                (List.range acc.num_planes) f.plane_size },
       [Event.ioctlSetFmt true], none⟩ := by
  have hg : ¬ (dev.fd < 0 ∨ (some f : Option MediaFormat).isNone = true) := by
    rintro (h | h)
    · exact absurd hfd (not_le.mpr h)
    · simp at h
  unfold libmedia_set_format_mp
  rw [if_neg hg]
  rfl

/-- Claim C9: after a successful multi-plane negotiation the cached Format
holds exactly the hardware-accepted width, height, pixelformat, field and
plane count, with every accepted per-plane size copied back, and both
libmedia_get_format and libmedia_get_format_mp return this cached copy
with no hardware event. -/
theorem c9_set_format_mp_caches_accepted (dev : DeviceContext)
    (f : MediaFormat) (acc : AcceptedFmtMP) (hfd : 0 ≤ dev.fd)
    (hnp : acc.num_planes ≤ f.plane_size.length) :
    (libmedia_set_format_mp dev (some f) (some acc)).ret = 0 ∧
    (libmedia_set_format_mp dev (some f) (some acc)).dev.format.width
      = acc.width ∧
    (libmedia_set_format_mp dev (some f) (some acc)).dev.format.height
      = acc.height ∧
    (libmedia_set_format_mp dev (some f) (some acc)).dev.format.pixelformat
      = acc.pixelformat ∧
    (libmedia_set_format_mp dev (some f) (some acc)).dev.format.field
      = acc.field ∧
    (libmedia_set_format_mp dev (some f) (some acc)).dev.format.num_planes
      = acc.num_planes ∧
    (∀ i, i < acc.num_planes →
      (libmedia_set_format_mp dev (some f) (some acc)).dev.format.plane_size.getD
        i 0 = acc.sizeimage i) ∧
    (libmedia_set_format_mp dev (some f) (some acc)).dev.use_multiplanar
      = true ∧
    (libmedia_set_format_mp dev (some f) (some acc)).fmt =
      some (libmedia_set_format_mp dev (some f) (some acc)).dev.format ∧
    libmedia_get_format (libmedia_set_format_mp dev (some f) (some acc)).dev =
      ⟨0, (libmedia_set_format_mp dev (some f) (some acc)).dev,
       some (libmedia_set_format_mp dev (some f) (some acc)).dev.format,
       [], none⟩ ∧
    libmedia_get_format_mp (libmedia_set_format_mp dev (some f) (some acc)).dev =
      ⟨0, (libmedia_set_format_mp dev (some f) (some acc)).dev,
       some (libmedia_set_format_mp dev (some f) (some acc)).dev.format,
       [], none⟩ := by
  have heq := set_format_mp_eq dev f acc hfd
  have hget : libmedia_get_format
      (libmedia_set_format_mp dev (some f) (some acc)).dev =
      ⟨0, (libmedia_set_format_mp dev (some f) (some acc)).dev,
       some (libmedia_set_format_mp dev (some f) (some acc)).dev.format,
       [], none⟩ := by
    unfold libmedia_get_format
    rw [heq]
    rw [if_neg (not_lt.mpr hfd)]
  rw [heq]
  refine ⟨rfl, rfl, rfl, rfl, rfl, rfl, ?_, rfl, rfl, ?_, ?_⟩
  · intro i hi
    exact copyPlaneSizes_getD_mem acc.sizeimage _ f.plane_size i
      (List.nodup_range _) (List.mem_range.mpr hi) (lt_of_lt_of_le hi hnp)
  · rw [← heq]; exact hget
  · rw [← heq]
    unfold libmedia_get_format_mp
    exact hget

/-- The hardware-accepted multi-planar format used by the C9 witness. -/
def sampleAccMP : AcceptedFmtMP :=
  { width := 1920
    height := 1080
    pixelformat := 0x3231564e
    field := 1
    num_planes := 2
    sizeimage := fun p => if p = 0 then 2073600 else 1036800 }

/-- Witness for C9 at a concrete device and accepted format. -/
theorem c9_set_format_mp_caches_accepted_witness :
    (libmedia_set_format_mp devIdle (some sampleFmt) (some sampleAccMP)).ret
      = 0 ∧
    (libmedia_set_format_mp devIdle (some sampleFmt)
      (some sampleAccMP)).dev.format.num_planes = 2 ∧
    (libmedia_set_format_mp devIdle (some sampleFmt)
      (some sampleAccMP)).dev.format.plane_size.getD 1 0 = 1036800 := by
  have h := c9_set_format_mp_caches_accepted devIdle sampleFmt sampleAccMP
    (by decide) (by decide)
  exact ⟨h.1, h.2.2.2.2.2.1,
    by
      have := h.2.2.2.2.2.2.1 1 (by decide)
      simpa using this⟩

/-! Facts about the buffer-mapping loops of libmedia_request_buffers,
leading to claim C1: the grant is returned as-is and mappings are never
unwound. -/

/-- The events carried by a PlaneOut. -/
def PlaneOut.evs : PlaneOut → List Event
  | .ok _ _ e => e
  | .fail _ _ e => e

theorem munmapCount_append (a b : List Event) :
    munmapCount (a ++ b) = munmapCount a + munmapCount b :=
  List.countP_append _ a b

theorem munmapCount_single_queryBuf (mp : Bool) (i : Nat) :
    munmapCount [Event.ioctlQueryBuf mp i] = 0 := rfl

theorem munmapCount_single_reqBufs (mp : Bool) (c : Nat) :
    munmapCount [Event.ioctlReqBufs mp c] = 0 := rfl

theorem munmapCount_single_mmap (i p a : Nat) :
    munmapCount [Event.mmapCall i p a] = 0 := rfl

theorem munmapCount_pair_sp (mp : Bool) (i p a : Nat) :
    munmapCount [Event.ioctlQueryBuf mp i, Event.mmapCall i p a] = 0 := rfl

theorem mapLoopSP_munmapCount (hw : ReqHwSP) (idxs : List Nat) :
    ∀ (arr : List MediaBuffer) (evs : List Event),
    munmapCount (mapLoopSP hw idxs arr evs).evs = munmapCount evs := by
  induction idxs with
  | nil => intro arr evs; rfl
  | cons i rest ih =>
    intro arr evs
    cases hq : hw.querybuf i with
    | none =>
      simp only [mapLoopSP, hq, LoopOut.evs]
      rw [munmapCount_append, munmapCount_single_queryBuf, Nat.add_zero]
    | some qb =>
      cases hm : hw.mmapRes i with
      | none =>
        simp only [mapLoopSP, hq, hm, LoopOut.evs]
        rw [munmapCount_append, munmapCount_single_queryBuf, Nat.add_zero]
      | some addr =>
        simp only [mapLoopSP, hq, hm]
        rw [ih, munmapCount_append, munmapCount_pair_sp, Nat.add_zero]

theorem mapLoopSP_ok_getD_not_mem (hw : ReqHwSP) (idxs : List Nat) :
    ∀ (arr : List MediaBuffer) (evs : List Event) (arr2 : List MediaBuffer)
      (evs2 : List Event), mapLoopSP hw idxs arr evs = .ok arr2 evs2 →
      ∀ j, j ∉ idxs → arr2.getD j default = arr.getD j default := by
  induction idxs with
  | nil =>
    intro arr evs arr2 evs2 hok j _
    cases hok
    rfl
  | cons i rest ih =>
    intro arr evs arr2 evs2 hok j hj
    cases hq : hw.querybuf i with
    | none =>
      simp only [mapLoopSP, hq] at hok
      exact LoopOut.noConfusion hok
    | some qb =>
      cases hm : hw.mmapRes i with
      | none =>
        simp only [mapLoopSP, hq, hm] at hok
        exact LoopOut.noConfusion hok
      | some addr =>
        simp only [mapLoopSP, hq, hm] at hok
        have hij : i ≠ j := fun h => hj (h ▸ List.mem_cons_self i rest)
        rw [ih _ _ _ _ hok j fun h => hj (List.mem_cons_of_mem i h)]
        exact getD_set_ne _ _ _ _ _ hij

theorem mapLoopSP_ok_mapped (hw : ReqHwSP) (idxs : List Nat) :
    ∀ (arr : List MediaBuffer) (evs : List Event) (arr2 : List MediaBuffer)
      (evs2 : List Event), idxs.Nodup →
      mapLoopSP hw idxs arr evs = .ok arr2 evs2 →
      ∀ i ∈ idxs, i < arr.length →
        0 < (arr.getD i default).start.length →
      ∃ a, hw.mmapRes i = some a ∧
        (arr2.getD i default).start.getD 0 Ptr.null = Ptr.mapped a := by
  induction idxs with
  | nil =>
    intro arr evs arr2 evs2 _ _ i hi
    cases hi
  | cons k rest ih =>
    intro arr evs arr2 evs2 hnd hok i hi hil hsl
    cases hq : hw.querybuf k with
    | none =>
      simp only [mapLoopSP, hq] at hok
      exact LoopOut.noConfusion hok
    | some qb =>
      cases hm : hw.mmapRes k with
      | none =>
        simp only [mapLoopSP, hq, hm] at hok
        exact LoopOut.noConfusion hok
      | some addr =>
        simp only [mapLoopSP, hq, hm] at hok
        rcases List.mem_cons.mp hi with h | h
        · subst h
          refine ⟨addr, hm, ?_⟩
          rw [mapLoopSP_ok_getD_not_mem hw rest _ _ _ _ hok i
            (List.nodup_cons.mp hnd).1]
          rw [getD_set_self _ _ _ _ hil]
          exact getD_set_self _ _ _ _ hsl
        · have hik : k ≠ i := fun hki => (List.nodup_cons.mp hnd).1 (hki ▸ h)
          exact ih _ _ _ _ (List.nodup_cons.mp hnd).2 hok i h
            (by rw [List.length_set]; exact hil)
            (by rw [getD_set_ne _ _ _ _ _ hik]; exact hsl)

/-- Evaluation of libmedia_request_buffers past its argument guard. -/
theorem request_buffers_eval (dev : DeviceContext) (count : Int)
    (arr : List MediaBuffer) (hw : ReqHwSP) (hfd : 0 ≤ dev.fd)
    (hc : 0 < count) :
    libmedia_request_buffers dev count (some arr) hw =
      (match hw.reqbufs with
       | none =>
         ⟨-1, dev, arr, [.ioctlReqBufs false count.toNat], some .bufferError⟩
       | some g =>
         match mapLoopSP hw (List.range g) arr
             [.ioctlReqBufs false count.toNat] with
         | .fail e arr2 evs => ⟨-1, dev, arr2, evs, some e⟩
         | .ok arr2 evs =>
           ⟨(g : Int), { dev with buffers := some arr2, buffer_count := g },
            arr2, evs, none⟩) := by
  have hg : ¬ (dev.fd < 0 ∨ count ≤ 0 ∨
      (some arr : Option (List MediaBuffer)).isNone = true) := by
    rintro (h | h | h)
    · exact absurd hfd (not_le.mpr h)
    · exact absurd hc (not_lt.mpr h)
    · simp at h
  unfold libmedia_request_buffers
  rw [if_neg hg]
  rfl

theorem mapPlanesMP_munmapCount (hw : ReqHwMP) (i : Nat) (pl : Nat → Nat)
    (ps : List Nat) : ∀ (st : List Ptr) (ln : List Nat) (evs : List Event),
    munmapCount (mapPlanesMP hw i pl ps st ln evs).evs = munmapCount evs := by
  induction ps with
  | nil => intro st ln evs; rfl
  | cons p rest ih =>
    intro st ln evs
    cases hm : hw.mmapRes i p with
    | none => simp only [mapPlanesMP, hm, PlaneOut.evs]
    | some addr =>
      simp only [mapPlanesMP, hm]
      rw [ih, munmapCount_append, munmapCount_single_mmap, Nat.add_zero]

theorem mapPlanesMP_ok_getD_not_mem (hw : ReqHwMP) (i : Nat) (pl : Nat → Nat)
    (ps : List Nat) : ∀ (st : List Ptr) (ln : List Nat) (evs : List Event)
      (st2 : List Ptr) (ln2 : List Nat) (evs2 : List Event),
      mapPlanesMP hw i pl ps st ln evs = .ok st2 ln2 evs2 →
      ∀ q, q ∉ ps → st2.getD q Ptr.null = st.getD q Ptr.null := by
  induction ps with
  | nil =>
    intro st ln evs st2 ln2 evs2 hok q _
    cases hok
    rfl
  | cons p rest ih =>
    intro st ln evs st2 ln2 evs2 hok q hq
    cases hm : hw.mmapRes i p with
    | none =>
      simp only [mapPlanesMP, hm] at hok
      exact PlaneOut.noConfusion hok
    | some addr =>
      simp only [mapPlanesMP, hm] at hok
      have hpq : p ≠ q := fun h => hq (h ▸ List.mem_cons_self p rest)
      rw [ih _ _ _ _ _ _ hok q fun h => hq (List.mem_cons_of_mem p h)]
      exact getD_set_ne _ _ _ _ _ hpq

theorem mapPlanesMP_ok_mapped (hw : ReqHwMP) (i : Nat) (pl : Nat → Nat)
    (ps : List Nat) : ∀ (st : List Ptr) (ln : List Nat) (evs : List Event)
      (st2 : List Ptr) (ln2 : List Nat) (evs2 : List Event), ps.Nodup →
      mapPlanesMP hw i pl ps st ln evs = .ok st2 ln2 evs2 →
      ∀ p ∈ ps, p < st.length →
      ∃ a, hw.mmapRes i p = some a ∧ st2.getD p Ptr.null = Ptr.mapped a := by
  induction ps with
  | nil =>
    intro st ln evs st2 ln2 evs2 _ _ p hp
    cases hp
  | cons k rest ih =>
    intro st ln evs st2 ln2 evs2 hnd hok p hp hpl
    cases hm : hw.mmapRes i k with
    | none =>
      simp only [mapPlanesMP, hm] at hok
      exact PlaneOut.noConfusion hok
    | some addr =>
      simp only [mapPlanesMP, hm] at hok
      rcases List.mem_cons.mp hp with h | h
      · subst h
        refine ⟨addr, hm, ?_⟩
        rw [mapPlanesMP_ok_getD_not_mem hw i pl rest _ _ _ _ _ _ hok p
          (List.nodup_cons.mp hnd).1]
        exact getD_set_self _ _ _ _ hpl
      · have hkp : k ≠ p := fun hk => (List.nodup_cons.mp hnd).1 (hk ▸ h)
        exact ih _ _ _ _ _ _ (List.nodup_cons.mp hnd).2 hok p h
          (by rw [List.length_set]; exact hpl)

theorem mapLoopMP_munmapCount (hw : ReqHwMP) (idxs : List Nat) :
    ∀ (arr : List MediaBuffer) (evs : List Event),
    munmapCount (mapLoopMP hw idxs arr evs).evs = munmapCount evs := by
  induction idxs with
  | nil => intro arr evs; rfl
  | cons i rest ih =>
    intro arr evs
    cases hq : hw.querybuf i with
    | none =>
      simp only [mapLoopMP, hq, LoopOut.evs]
      rw [munmapCount_append, munmapCount_single_queryBuf, Nat.add_zero]
    | some qb =>
      have hinner := mapPlanesMP_munmapCount hw i qb.plane_length
        (List.range qb.num_planes) (arr.getD i default).start
        (arr.getD i default).length (evs ++ [Event.ioctlQueryBuf true i])
      cases hpl : mapPlanesMP hw i qb.plane_length (List.range qb.num_planes)
          (arr.getD i default).start (arr.getD i default).length
          (evs ++ [Event.ioctlQueryBuf true i]) with
      | fail st ln evs2 =>
        simp only [mapLoopMP, hq, hpl, LoopOut.evs]
        rw [hpl] at hinner
        simp only [PlaneOut.evs] at hinner
        rw [hinner, munmapCount_append, munmapCount_single_queryBuf,
          Nat.add_zero]
      | ok st ln evs2 =>
        simp only [mapLoopMP, hq, hpl]
        rw [hpl] at hinner
        simp only [PlaneOut.evs] at hinner
        rw [ih, hinner, munmapCount_append, munmapCount_single_queryBuf,
          Nat.add_zero]

theorem mapLoopMP_ok_getD_not_mem (hw : ReqHwMP) (idxs : List Nat) :
    ∀ (arr : List MediaBuffer) (evs : List Event) (arr2 : List MediaBuffer)
      (evs2 : List Event), mapLoopMP hw idxs arr evs = .ok arr2 evs2 →
      ∀ j, j ∉ idxs → arr2.getD j default = arr.getD j default := by
  induction idxs with
  | nil =>
    intro arr evs arr2 evs2 hok j _
    cases hok
    rfl
  | cons i rest ih =>
    intro arr evs arr2 evs2 hok j hj
    cases hq : hw.querybuf i with
    | none =>
      simp only [mapLoopMP, hq] at hok
      exact LoopOut.noConfusion hok
    | some qb =>
      cases hpl : mapPlanesMP hw i qb.plane_length (List.range qb.num_planes)
          (arr.getD i default).start (arr.getD i default).length
          (evs ++ [Event.ioctlQueryBuf true i]) with
      | fail st ln evs3 =>
        simp only [mapLoopMP, hq, hpl] at hok
        exact LoopOut.noConfusion hok
      | ok st ln evs3 =>
        simp only [mapLoopMP, hq, hpl] at hok
        have hij : i ≠ j := fun h => hj (h ▸ List.mem_cons_self i rest)
        rw [ih _ _ _ _ hok j fun h => hj (List.mem_cons_of_mem i h)]
        exact getD_set_ne _ _ _ _ _ hij

theorem mapLoopMP_ok_spec (hw : ReqHwMP) (idxs : List Nat) :
    ∀ (arr : List MediaBuffer) (evs : List Event) (arr2 : List MediaBuffer)
      (evs2 : List Event), idxs.Nodup →
      mapLoopMP hw idxs arr evs = .ok arr2 evs2 →
      ∀ i ∈ idxs, i < arr.length →
        (arr.getD i default).start.length = VIDEO_MAX_PLANES →
      ∃ qb, hw.querybuf i = some qb ∧
        (arr2.getD i default).num_planes = qb.num_planes ∧
        ∀ p, p < qb.num_planes → p < VIDEO_MAX_PLANES →
          ∃ a, hw.mmapRes i p = some a ∧
            (arr2.getD i default).start.getD p Ptr.null = Ptr.mapped a := by
  induction idxs with
  | nil =>
    intro arr evs arr2 evs2 _ _ i hi
    cases hi
  | cons k rest ih =>
    intro arr evs arr2 evs2 hnd hok i hi hil hsl
    cases hq : hw.querybuf k with
    | none =>
      simp only [mapLoopMP, hq] at hok
      exact LoopOut.noConfusion hok
    | some qb =>
      cases hpl : mapPlanesMP hw k qb.plane_length (List.range qb.num_planes)
          (arr.getD k default).start (arr.getD k default).length
          (evs ++ [Event.ioctlQueryBuf true k]) with
      | fail st ln evs3 =>
        simp only [mapLoopMP, hq, hpl] at hok
        exact LoopOut.noConfusion hok
      | ok st ln evs3 =>
        simp only [mapLoopMP, hq, hpl] at hok
        rcases List.mem_cons.mp hi with h | h
        · subst h
          have hstab := mapLoopMP_ok_getD_not_mem hw rest _ _ _ _ hok i
            (List.nodup_cons.mp hnd).1
          refine ⟨qb, hq, ?_, ?_⟩
          · rw [hstab, getD_set_self _ _ _ _ hil]
          · intro p hp hp8
            obtain ⟨a, ha, hst⟩ := mapPlanesMP_ok_mapped hw i qb.plane_length
              (List.range qb.num_planes) _ _ _ _ _ _ (List.nodup_range _) hpl
              p (List.mem_range.mpr hp) (by rw [hsl]; exact hp8)
            refine ⟨a, ha, ?_⟩
            rw [hstab, getD_set_self _ _ _ _ hil]
            exact hst
        · have hki : k ≠ i := fun hk => (List.nodup_cons.mp hnd).1 (hk ▸ h)
          exact ih _ _ _ _ (List.nodup_cons.mp hnd).2 hok i h
            (by rw [List.length_set]; exact hil)
            (by rw [getD_set_ne _ _ _ _ _ hki]; exact hsl)

/-- Evaluation of libmedia_request_buffers_mp past its argument guard. -/
theorem request_buffers_mp_eval (dev : DeviceContext) (count : Int)
    (arr : List MediaBuffer) (hw : ReqHwMP) (hfd : 0 ≤ dev.fd)
    (hc : 0 < count) :
    libmedia_request_buffers_mp dev count (some arr) hw =
      (match hw.reqbufs with
       | none =>
         ⟨-1, dev, arr, [.ioctlReqBufs true count.toNat], some .bufferError⟩
       | some g =>
         match mapLoopMP hw (List.range g) arr
             [.ioctlReqBufs true count.toNat] with
         | .fail e arr2 evs => ⟨-1, dev, arr2, evs, some e⟩
         | .ok arr2 evs =>
           ⟨(g : Int), { dev with buffers := some arr2, buffer_count := g },
            arr2, evs, none⟩) := by
  have hg : ¬ (dev.fd < 0 ∨ count ≤ 0 ∨
      (some arr : Option (List MediaBuffer)).isNone = true) := by
    rintro (h | h | h)
    · exact absurd hfd (not_le.mpr h)
    · exact absurd hc (not_lt.mpr h)
    · simp at h
  unfold libmedia_request_buffers_mp
  rw [if_neg hg]
  rfl

/-- request_buffers evaluation when the grant is known. -/
theorem request_buffers_eval_some (dev : DeviceContext) (count : Int)
    (arr : List MediaBuffer) (hw : ReqHwSP) (g : Nat) (hfd : 0 ≤ dev.fd)
    (hc : 0 < count) (hg : hw.reqbufs = some g) :
    libmedia_request_buffers dev count (some arr) hw =
      (match mapLoopSP hw (List.range g) arr
          [.ioctlReqBufs false count.toNat] with
       | .fail e arr2 evs => ⟨-1, dev, arr2, evs, some e⟩
       | .ok arr2 evs =>
         ⟨(g : Int), { dev with buffers := some arr2, buffer_count := g },
          arr2, evs, none⟩) := by
  rw [request_buffers_eval dev count arr hw hfd hc, hg]

/-- request_buffers evaluation when the pool request itself fails. -/
theorem request_buffers_eval_none (dev : DeviceContext) (count : Int)
    (arr : List MediaBuffer) (hw : ReqHwSP) (hfd : 0 ≤ dev.fd)
    (hc : 0 < count) (hg : hw.reqbufs = none) :
    libmedia_request_buffers dev count (some arr) hw =
      ⟨-1, dev, arr, [.ioctlReqBufs false count.toNat],
       some .bufferError⟩ := by
  rw [request_buffers_eval dev count arr hw hfd hc, hg]

/-- request_buffers_mp evaluation when the grant is known. -/
theorem request_buffers_mp_eval_some (dev : DeviceContext) (count : Int)
    (arr : List MediaBuffer) (hw : ReqHwMP) (g : Nat) (hfd : 0 ≤ dev.fd)
    (hc : 0 < count) (hg : hw.reqbufs = some g) :
    libmedia_request_buffers_mp dev count (some arr) hw =
      (match mapLoopMP hw (List.range g) arr
          [.ioctlReqBufs true count.toNat] with
       | .fail e arr2 evs => ⟨-1, dev, arr2, evs, some e⟩
       | .ok arr2 evs =>
         ⟨(g : Int), { dev with buffers := some arr2, buffer_count := g },
          arr2, evs, none⟩) := by
  rw [request_buffers_mp_eval dev count arr hw hfd hc, hg]

/-- request_buffers_mp evaluation when the pool request itself fails. -/
theorem request_buffers_mp_eval_none (dev : DeviceContext) (count : Int)
    (arr : List MediaBuffer) (hw : ReqHwMP) (hfd : 0 ≤ dev.fd)
    (hc : 0 < count) (hg : hw.reqbufs = none) :
    libmedia_request_buffers_mp dev count (some arr) hw =
      ⟨-1, dev, arr, [.ioctlReqBufs true count.toNat],
       some .bufferError⟩ := by
  rw [request_buffers_mp_eval dev count arr hw hfd hc, hg]

/-- The hardware behaviour driving the C1 counterexample: two buffers
granted, both buffer queries succeed, the mapping of buffer 0 succeeds and
the mapping of buffer 1 yields MAP_FAILED. -/
def hwC1 : ReqHwSP :=
  { reqbufs := some 2
    querybuf := fun _ => some ⟨614400, 0⟩
    mmapRes := fun i => if i = 0 then some 4096 else none }

/-- A second behaviour: hardware grants only 1 of the 2 requested buffers
and everything else succeeds. -/
def hwC1grant1 : ReqHwSP :=
  { reqbufs := some 1
    querybuf := fun _ => some ⟨614400, 0⟩
    mmapRes := fun _ => some 4096 }

/-- A fully successful two-buffer behaviour. -/
def hwC1ok : ReqHwSP :=
  { reqbufs := some 2
    querybuf := fun _ => some ⟨614400, 0⟩
    mmapRes := fun i => some (4096 * (i + 1)) }

/-- Counterexample for C1: with a two-buffer request where the second mmap
fails, libmedia_request_buffers neither returns 2 nor fails with zero
mapped planes: it returns -1 with the plane of buffer 0 still mapped (the
mapping-count probe reads 1), and with a grant of 1 below the requested 2
it returns 1 as a success rather than an error. -/
theorem c1_counterexample :
    ¬ ((libmedia_request_buffers devIdle 2 (some [blankBuf, blankBuf])
          hwC1).ret = 2 ∨
       ((libmedia_request_buffers devIdle 2 (some [blankBuf, blankBuf])
          hwC1).ret < 0 ∧
        arrayMappedCount (libmedia_request_buffers devIdle 2
          (some [blankBuf, blankBuf]) hwC1).arr = 0)) ∧
    (libmedia_request_buffers devIdle 2 (some [blankBuf, blankBuf]) hwC1).ret
      = -1 ∧
    arrayMappedCount (libmedia_request_buffers devIdle 2
      (some [blankBuf, blankBuf]) hwC1).arr = 1 ∧
    (libmedia_request_buffers devIdle 2 (some [blankBuf, blankBuf])
      hwC1grant1).ret = 1 := by
  decide

/-- Claim C1 as amended: both buffer-allocation paths return the hardware
grant as-is (possibly below the requested count) with every granted buffer
mapped on success, and never perform any unmapping, so a mapping failure
aborts with every previously established mapping left in place. -/
theorem c1_amended_request_buffers_grant_no_unwind :
    (∀ (dev : DeviceContext) (count : Int) (arr : List MediaBuffer)
       (hw : ReqHwSP), 0 ≤ dev.fd → 0 < count →
      munmapCount (libmedia_request_buffers dev count (some arr) hw).evs
        = 0 ∧
      (0 ≤ (libmedia_request_buffers dev count (some arr) hw).ret →
        hw.reqbufs =
          some (libmedia_request_buffers dev count (some arr) hw).ret.toNat ∧
        (libmedia_request_buffers dev count (some arr) hw).dev.buffer_count =
          (libmedia_request_buffers dev count (some arr) hw).ret.toNat ∧
        (libmedia_request_buffers dev count (some arr) hw).dev.buffers =
          some (libmedia_request_buffers dev count (some arr) hw).arr ∧
        ((libmedia_request_buffers dev count (some arr) hw).ret.toNat ≤
            arr.length →
          (∀ b ∈ arr, b.start.length = VIDEO_MAX_PLANES) →
          ∀ i, i < (libmedia_request_buffers dev count (some arr) hw).ret.toNat →
            ∃ a, hw.mmapRes i = some a ∧
              ((libmedia_request_buffers dev count (some arr) hw).arr.getD i
                default).start.getD 0 Ptr.null = Ptr.mapped a))) ∧
    (∀ (dev : DeviceContext) (count : Int) (arr : List MediaBuffer)
       (hw : ReqHwMP), 0 ≤ dev.fd → 0 < count →
      munmapCount (libmedia_request_buffers_mp dev count (some arr) hw).evs
        = 0 ∧
      (0 ≤ (libmedia_request_buffers_mp dev count (some arr) hw).ret →
        hw.reqbufs =
          some (libmedia_request_buffers_mp dev count (some arr) hw).ret.toNat ∧
        (libmedia_request_buffers_mp dev count (some arr) hw).dev.buffer_count =
          (libmedia_request_buffers_mp dev count (some arr) hw).ret.toNat ∧
        (libmedia_request_buffers_mp dev count (some arr) hw).dev.buffers =
          some (libmedia_request_buffers_mp dev count (some arr) hw).arr ∧
        ((libmedia_request_buffers_mp dev count (some arr) hw).ret.toNat ≤
            arr.length →
          (∀ b ∈ arr, b.start.length = VIDEO_MAX_PLANES) →
          ∀ i, i < (libmedia_request_buffers_mp dev count (some arr) hw).ret.toNat →
            ∃ qb, hw.querybuf i = some qb ∧
              ((libmedia_request_buffers_mp dev count (some arr) hw).arr.getD i
                default).num_planes = qb.num_planes ∧
              ∀ p, p < qb.num_planes → p < VIDEO_MAX_PLANES →
                ∃ a, hw.mmapRes i p = some a ∧
                  ((libmedia_request_buffers_mp dev count (some arr)
                    hw).arr.getD i default).start.getD p Ptr.null =
                    Ptr.mapped a))) := by
  constructor
  · intro dev count arr hw hfd hc
    cases hg : hw.reqbufs with
    | none =>
      have heval := request_buffers_eval_none dev count arr hw hfd hc hg
      rw [heval]
      exact ⟨rfl, fun h0 => absurd h0 (show ¬ (0:Int) ≤ -1 by decide)⟩
    | some g =>
      have hcnt := mapLoopSP_munmapCount hw (List.range g) arr
        [Event.ioctlReqBufs false count.toNat]
      cases hres : mapLoopSP hw (List.range g) arr
          [Event.ioctlReqBufs false count.toNat] with
      | fail e arr2 evs =>
        have heval : libmedia_request_buffers dev count (some arr) hw =
            ⟨-1, dev, arr2, evs, some e⟩ := by
          rw [request_buffers_eval_some dev count arr hw g hfd hc hg, hres]
        rw [hres] at hcnt
        simp only [LoopOut.evs] at hcnt
        rw [heval]
        exact ⟨hcnt.trans (munmapCount_single_reqBufs false count.toNat),
          fun h0 => absurd h0 (show ¬ (0:Int) ≤ -1 by decide)⟩
      | ok arr2 evs =>
        have heval : libmedia_request_buffers dev count (some arr) hw =
            ⟨(g : Int), { dev with buffers := some arr2, buffer_count := g },
             arr2, evs, none⟩ := by
          rw [request_buffers_eval_some dev count arr hw g hfd hc hg, hres]
        rw [hres] at hcnt
        simp only [LoopOut.evs] at hcnt
        simp only [heval, Int.toNat_natCast]
        refine ⟨hcnt.trans (munmapCount_single_reqBufs false count.toNat), ?_⟩
        intro _
        refine ⟨trivial, trivial, trivial, ?_⟩
        intro hle hlen i hi
        have hil : i < arr.length := lt_of_lt_of_le hi hle
        have hsl : 0 < (arr.getD i default).start.length := by
          rw [List.getD_eq_getElem arr default hil,
            hlen _ (List.getElem_mem hil)]
          decide
        exact mapLoopSP_ok_mapped hw (List.range g) arr
          [Event.ioctlReqBufs false count.toNat] arr2 evs
          (List.nodup_range g) hres i (List.mem_range.mpr hi) hil hsl
  · intro dev count arr hw hfd hc
    cases hg : hw.reqbufs with
    | none =>
      have heval := request_buffers_mp_eval_none dev count arr hw hfd hc hg
      rw [heval]
      exact ⟨rfl, fun h0 => absurd h0 (show ¬ (0:Int) ≤ -1 by decide)⟩
    | some g =>
      have hcnt := mapLoopMP_munmapCount hw (List.range g) arr
        [Event.ioctlReqBufs true count.toNat]
      cases hres : mapLoopMP hw (List.range g) arr
          [Event.ioctlReqBufs true count.toNat] with
      | fail e arr2 evs =>
        have heval : libmedia_request_buffers_mp dev count (some arr) hw =
            ⟨-1, dev, arr2, evs, some e⟩ := by
          rw [request_buffers_mp_eval_some dev count arr hw g hfd hc hg, hres]
        rw [hres] at hcnt
        simp only [LoopOut.evs] at hcnt
        rw [heval]
        exact ⟨hcnt.trans (munmapCount_single_reqBufs true count.toNat),
          fun h0 => absurd h0 (show ¬ (0:Int) ≤ -1 by decide)⟩
      | ok arr2 evs =>
        have heval : libmedia_request_buffers_mp dev count (some arr) hw =
            ⟨(g : Int), { dev with buffers := some arr2, buffer_count := g },
             arr2, evs, none⟩ := by
          rw [request_buffers_mp_eval_some dev count arr hw g hfd hc hg, hres]
        rw [hres] at hcnt
        simp only [LoopOut.evs] at hcnt
        simp only [heval, Int.toNat_natCast]
        refine ⟨hcnt.trans (munmapCount_single_reqBufs true count.toNat), ?_⟩
        intro _
        refine ⟨trivial, trivial, trivial, ?_⟩
        intro hle hlen i hi
        have hil : i < arr.length := lt_of_lt_of_le hi hle
        have hsl : (arr.getD i default).start.length = VIDEO_MAX_PLANES := by
          rw [List.getD_eq_getElem arr default hil]
          exact hlen _ (List.getElem_mem hil)
        exact mapLoopMP_ok_spec hw (List.range g) arr
          [Event.ioctlReqBufs true count.toNat] arr2 evs
          (List.nodup_range g) hres i (List.mem_range.mpr hi) hil hsl

/-- Witness for the amended C1 at concrete hardware behaviours. -/
theorem c1_amended_request_buffers_grant_no_unwind_witness :
    munmapCount (libmedia_request_buffers devIdle 2
      (some [blankBuf, blankBuf]) hwC1).evs = 0 ∧
    hwC1ok.reqbufs = some (libmedia_request_buffers devIdle 2
      (some [blankBuf, blankBuf]) hwC1ok).ret.toNat :=
  ⟨(c1_amended_request_buffers_grant_no_unwind.1 devIdle 2
      [blankBuf, blankBuf] hwC1 (by decide) (by decide)).1,
   ((c1_amended_request_buffers_grant_no_unwind.1 devIdle 2
      [blankBuf, blankBuf] hwC1ok (by decide) (by decide)).2 (by decide)).1⟩

/-! The device-registry lifetime facts behind claim C10. -/

/-- On an initialized registry the re-init branch of open is a no-op. -/
theorem open_init_branch (st : Registry) (hinit : st.initialized = true) :
    (if st.initialized = true then st else (libmedia_init st).2) = st := by
  rw [hinit]
  simp

/-- Evaluation of a fully successful open. -/
theorem open_device_eval_some (st : Registry) (path : String) (fd : Int)
    (hinit : st.initialized = true) (hlt : st.device_count < MAX_DEVICES) :
    libmedia_open_device st (some path) (some fd) =
      ((st.device_count : Int),
       { st with
         devices := st.devices.set st.device_count
           { st.devices.getD st.device_count emptyDevice with
             fd := fd
             device_path := path
             buffer_count := 0
             buffers := none
             streaming := false
             use_multiplanar := false }
         device_count := st.device_count + 1 }) := by
  simp [libmedia_open_device, open_init_branch st hinit, not_le.mpr hlt]

/-- The count and initialization bookkeeping of libmedia_open_device:
the count grows by exactly the success indicator, a success requires a free
slot and returns the pre-call count, and the registry stays initialized. -/
theorem open_device_count_spec (st : Registry) (p : Option String)
    (f : Option Int) (hinit : st.initialized = true) :
    (libmedia_open_device st p f).2.device_count =
      st.device_count +
        (if 0 ≤ (libmedia_open_device st p f).1 then 1 else 0) ∧
    (0 ≤ (libmedia_open_device st p f).1 →
      st.device_count < MAX_DEVICES ∧
      (libmedia_open_device st p f).1 = (st.device_count : Int)) ∧
    (libmedia_open_device st p f).2.initialized = true := by
  cases p with
  | none =>
    have heval : libmedia_open_device st none f =
        (-1, setErr st .invalidParam) := by
      simp [libmedia_open_device, open_init_branch st hinit]
    rw [heval]
    refine ⟨?_, ?_, hinit⟩
    · rw [if_neg (show ¬ (0:Int) ≤ -1 by decide), Nat.add_zero]
      rfl
    · intro h0
      exact absurd h0 (show ¬ (0:Int) ≤ -1 by decide)
  | some path =>
    by_cases hcnt : MAX_DEVICES ≤ st.device_count
    · have heval : libmedia_open_device st (some path) f =
          (-1, setErr st .outOfMemory) := by
        simp [libmedia_open_device, open_init_branch st hinit, hcnt]
      rw [heval]
      refine ⟨?_, ?_, hinit⟩
      · rw [if_neg (show ¬ (0:Int) ≤ -1 by decide), Nat.add_zero]
        rfl
      · intro h0
        exact absurd h0 (show ¬ (0:Int) ≤ -1 by decide)
    · cases f with
      | none =>
        have heval : libmedia_open_device st (some path) none =
            (-1, setErr st .deviceNotFound) := by
          simp [libmedia_open_device, open_init_branch st hinit, hcnt]
        rw [heval]
        refine ⟨?_, ?_, hinit⟩
        · rw [if_neg (show ¬ (0:Int) ≤ -1 by decide), Nat.add_zero]
          rfl
        · intro h0
          exact absurd h0 (show ¬ (0:Int) ≤ -1 by decide)
      | some fd =>
        rw [open_device_eval_some st path fd hinit (not_le.mp hcnt)]
        refine ⟨?_, ?_, hinit⟩
        · rw [if_pos (Int.natCast_nonneg st.device_count)]
        · intro _
          exact ⟨not_le.mp hcnt, rfl⟩

/-- libmedia_close_device never changes the device count or the
initialization flag of the registry. -/
theorem close_device_registry_spec (st : Registry) (handle : Int)
    (stopOk : Bool) :
    (libmedia_close_device st handle stopOk).2.1.device_count =
      st.device_count ∧
    (libmedia_close_device st handle stopOk).2.1.initialized =
      st.initialized := by
  unfold libmedia_close_device
  by_cases h1 : handle < 0 ∨ (st.device_count : Int) ≤ handle
  · rw [if_pos h1]
    exact ⟨rfl, rfl⟩
  · rw [if_neg h1]
    by_cases h2 : (st.devices.getD handle.toNat emptyDevice).fd < 0
    · rw [if_pos h2]
      exact ⟨rfl, rfl⟩
    · rw [if_neg h2]
      exact ⟨rfl, rfl⟩

/-- Over any trace of opens and closes on an initialized registry, the
count equals the initial count plus the successful opens, and (while the
count starts within the table) it never exceeds MAX_DEVICES. -/
theorem runOps_bound (ops : List MediaOp) : ∀ st : Registry,
    st.initialized = true → st.device_count ≤ MAX_DEVICES →
    (runOps st ops).2 + st.device_count ≤ MAX_DEVICES ∧
    (runOps st ops).1.device_count = st.device_count + (runOps st ops).2 := by
  induction ops with
  | nil =>
    intro st _ hle
    exact ⟨by simpa [runOps] using hle, by simp [runOps]⟩
  | cons op rest ih =>
    intro st hinit hle
    cases op with
    | openDev p f =>
      obtain ⟨hcount, hsucc, hinit2⟩ := open_device_count_spec st p f hinit
      have hle2 : (libmedia_open_device st p f).2.device_count ≤
          MAX_DEVICES := by
        by_cases hs : 0 ≤ (libmedia_open_device st p f).1
        · rw [hcount, if_pos hs]
          exact (hsucc hs).1
        · rw [hcount, if_neg hs, Nat.add_zero]
          exact hle
      obtain ⟨hrest1, hrest2⟩ := ih (libmedia_open_device st p f).2 hinit2 hle2
      constructor
      · show (runOps (libmedia_open_device st p f).2 rest).2 +
            (if 0 ≤ (libmedia_open_device st p f).1 then 1 else 0) +
            st.device_count ≤ MAX_DEVICES
        rw [hcount] at hrest1
        omega
      · show (runOps (libmedia_open_device st p f).2 rest).1.device_count =
            st.device_count +
              ((runOps (libmedia_open_device st p f).2 rest).2 +
               (if 0 ≤ (libmedia_open_device st p f).1 then 1 else 0))
        rw [hrest2, hcount]
        omega
    | closeDev h ok =>
      obtain ⟨hc1, hc2⟩ := close_device_registry_spec st h ok
      have hinit2 : (libmedia_close_device st h ok).2.1.initialized = true :=
        hc2.trans hinit
      have hle2 : (libmedia_close_device st h ok).2.1.device_count ≤
          MAX_DEVICES := by
        rw [hc1]
        exact hle
      obtain ⟨hrest1, hrest2⟩ := ih (libmedia_close_device st h ok).2.1
        hinit2 hle2
      constructor
      · show (runOps (libmedia_close_device st h ok).2.1 rest).2 +
            st.device_count ≤ MAX_DEVICES
        rw [hc1] at hrest1
        exact hrest1
      · show (runOps (libmedia_close_device st h ok).2.1 rest).1.device_count =
            st.device_count + (runOps (libmedia_close_device st h ok).2.1 rest).2
        rw [hrest2, hc1]

/-- Claim C10: registry slots are never reused: every successful open
returns the pre-call device count as the handle and bumps the count by one,
close never changes the count, once the count has reached MAX_DEVICES every
further open fails no matter what the slots hold or whether their devices
were closed, and over any trace of opens and closes from a fresh registry
at most MAX_DEVICES (16) opens can ever succeed. -/
theorem c10_registry_slots_never_reused :
    (∀ (st : Registry) (path : String) (fd : Int),
      st.initialized = true → st.device_count < MAX_DEVICES →
      (libmedia_open_device st (some path) (some fd)).1 =
        (st.device_count : Int) ∧
      (libmedia_open_device st (some path) (some fd)).2.device_count =
        st.device_count + 1) ∧
    (∀ (st : Registry) (handle : Int) (stopOk : Bool),
      (libmedia_close_device st handle stopOk).2.1.device_count =
        st.device_count) ∧
    (∀ (st : Registry) (p : Option String) (f : Option Int),
      st.initialized = true → MAX_DEVICES ≤ st.device_count →
      (libmedia_open_device st p f).1 < 0) ∧
    (∀ ops : List MediaOp, (runOps freshRegistry ops).2 ≤ MAX_DEVICES) := by
  refine ⟨?_, ?_, ?_, ?_⟩
  · intro st path fd hinit hlt
    rw [open_device_eval_some st path fd hinit hlt]
    exact ⟨rfl, rfl⟩
  · intro st handle stopOk
    exact (close_device_registry_spec st handle stopOk).1
  · intro st p f hinit hfull
    cases p with
    | none =>
      have heval : libmedia_open_device st none f =
          (-1, setErr st .invalidParam) := by
        simp [libmedia_open_device, open_init_branch st hinit]
      rw [heval]
      exact show (-1:Int) < 0 by decide
    | some path =>
      have heval : libmedia_open_device st (some path) f =
          (-1, setErr st .outOfMemory) := by
        simp [libmedia_open_device, open_init_branch st hinit, hfull]
      rw [heval]
      exact show (-1:Int) < 0 by decide
  · intro ops
    have hfresh : freshRegistry.initialized = true := rfl
    have hle : freshRegistry.device_count ≤ MAX_DEVICES := by decide
    have := (runOps_bound ops freshRegistry hfresh hle).1
    have hzero : freshRegistry.device_count = 0 := rfl
    omega

/-- Witness for C10: the first open on a fresh registry yields handle 0,
and closing it leaves the count at 1. -/
theorem c10_registry_slots_never_reused_witness :
    (libmedia_open_device freshRegistry (some "/dev/video0") (some 3)).1
      = 0 ∧
    (libmedia_close_device
      (libmedia_open_device freshRegistry (some "/dev/video0") (some 3)).2
      0 true).2.1.device_count = 1 := by
  have h1 := (c10_registry_slots_never_reused.1 freshRegistry "/dev/video0" 3
    rfl (by decide))
  have h2 := c10_registry_slots_never_reused.2.1
    (libmedia_open_device freshRegistry (some "/dev/video0") (some 3)).2 0 true
  refine ⟨h1.1, ?_⟩
  rw [h2, h1.2]
  decide

end LibMedia
